import Mathlib

/-!
# bta/jv/bta_jv_api.cc: the submission side of the JV socket manager

A shallow embedding of the API functions of `bta_jv_api.cc`.  Every function
takes the shared state (`bta_jv_cb`, the worker queue and the record of
callbacks run in the caller's context) and returns its C return value together
with the state it leaves behind.

Conventions

* `uint32_t` values are natural numbers; the one place where the source relies
  on unsigned wrap-around (`... - 1` in the handle decode) is reduced modulo
  `2 ^ 32` explicitly.
* A pointer to a callback is `Option Nat`: `none` is `NULL`, `some c` is the
  function with identity `c`.
* A pointer into one of the control-block arrays is the index of the slot.
* The arrays of `bta_jv_cb` are total maps from indices; a read is bounds
  checked against the declared capacity and a function that would read past
  the end of an array yields `none`.
* The macros of `bta_jv_int.h`, `bta_jv_api.h` and `bt_target.h` are not part of
  this source file.  They are the fields of `JvConfig`.
* `ApiCall` names one call of a submission function with its arguments, and
  `apiStep` runs it; statements about every function of the file quantify over
  `ApiCall`.
-/

set_option autoImplicit false

namespace BtaJv

/-! ## Machine arithmetic -/

/-- Bitwise complement of a value at type `uint32_t`. -/
def not32 (m : Nat) : Nat := 2 ^ 32 - 1 - m % 2 ^ 32

/-- Subtraction at type `uint32_t`, wrapping around below zero. -/
def sub32 (a b : Nat) : Nat := (a % 2 ^ 32 + (2 ^ 32 - b % 2 ^ 32)) % 2 ^ 32

/-! ## Build-time constants -/

/-- The macros the API functions refer to.  None of them is defined in
`bta_jv_api.cc`; they are parameters of the model. -/
structure JvConfig where
  /-- Number of entries of `bta_jv_cb.rfc_cb`. -/
  BTA_JV_MAX_RFC_CONN : Nat
  /-- Number of entries of `rfc_hdl` in one RFCOMM control block. -/
  BTA_JV_MAX_RFC_SR_SESSION : Nat
  /-- Number of entries of `bta_jv_cb.l2c_cb`. -/
  BTA_JV_MAX_L2C_CONN : Nat
  /-- Number of entries of `bta_jv_cb.port_cb`. -/
  MAX_RFC_PORTS : Nat
  /-- Mask selecting the session field of an RFCOMM handle. -/
  BTA_JV_RFC_HDL_MASK : Nat
  /-- The bit that marks a handle as an RFCOMM handle. -/
  BTA_JV_RFCOMM_MASK : Nat
  /-- The macro extracting the sub-session index of an RFCOMM handle. -/
  BTA_JV_RFC_HDL_TO_SIDX : Nat → Nat
  /-- Connection type: RFCOMM. -/
  BTA_JV_CONN_TYPE_RFCOMM : Int
  /-- Connection type: L2CAP. -/
  BTA_JV_CONN_TYPE_L2CAP : Int
  /-- Connection type: L2CAP over LE. -/
  BTA_JV_CONN_TYPE_L2CAP_LE : Int
  /-- Number of entries of `bta_jv_cb.pm_cb`. -/
  BTA_JV_PM_MAX_NUM : Nat
  /-- The handle value of an unused power-mode entry. -/
  BTA_JV_PM_HANDLE_CLEAR : Nat
  /-- Number of entries of `uuid_list` in a start-discovery message. -/
  BTA_JV_MAX_UUIDS : Nat

/-- The handle layout the codec theorems assume, the one of `bta_jv_int.h`: the
session field is the low byte, its top bit is the RFCOMM marker, and the
sub-session index is the second byte. -/
def JvConfig.HeaderLayout (cfg : JvConfig) : Prop :=
  cfg.BTA_JV_RFC_HDL_MASK = 0xFF ∧ cfg.BTA_JV_RFCOMM_MASK = 0x80 ∧
    ∀ r, cfg.BTA_JV_RFC_HDL_TO_SIDX r = (r &&& 0xFF00) >>> 8

/-- A sample configuration for concrete instances of the theorems, with the
values of a default build of the stack: 30 RFCOMM ports, 7 sessions per server
channel, 30 GAP connections, and the handle layout of `bta_jv_int.h`. -/
def defaultConfig : JvConfig where
  BTA_JV_MAX_RFC_CONN := 30
  BTA_JV_MAX_RFC_SR_SESSION := 7
  BTA_JV_MAX_L2C_CONN := 30
  MAX_RFC_PORTS := 30
  BTA_JV_RFC_HDL_MASK := 0xFF
  BTA_JV_RFCOMM_MASK := 0x80
  BTA_JV_RFC_HDL_TO_SIDX := fun r => (r &&& 0xFF00) >>> 8
  BTA_JV_CONN_TYPE_RFCOMM := 0
  BTA_JV_CONN_TYPE_L2CAP := 1
  BTA_JV_CONN_TYPE_L2CAP_LE := 2
  BTA_JV_PM_MAX_NUM := 5
  BTA_JV_PM_HANDLE_CLEAR := 0xFF
  BTA_JV_MAX_UUIDS := 3

/-! ## Data model -/

/-- The two values of `tBTA_JV_STATUS` that the API functions return. -/
inductive tBTA_JV_STATUS where
  | BTA_JV_SUCCESS
  | BTA_JV_FAILURE
  deriving DecidableEq, Repr

/-- RFCOMM control block: the registered callback and the port references of
its sub-sessions (`0` is "unassigned", `n + 1` refers to `port_cb[n]`). -/
structure tBTA_JV_RFC_CB where
  p_cback : Option Nat
  rfc_hdl : Nat → Nat

/-- Port control block. -/
structure tBTA_JV_PCB where
  port_handle : Nat

/-- L2CAP control block. -/
structure tBTA_JV_L2C_CB where
  p_cback : Option Nat
  l2cap_socket_id : Nat

/-- Power-mode entry: the connection handle it belongs to, the application's
power profile and the requested connection state. -/
structure tBTA_JV_PM_CB where
  handle : Nat
  app_id : Nat
  state : Nat

/-- The control-block pools of `bta_jv_cb` and its power-mode table. -/
structure tBTA_JV_CB where
  rfc_cb : Nat → tBTA_JV_RFC_CB
  port_cb : Nat → tBTA_JV_PCB
  l2c_cb : Nat → tBTA_JV_L2C_CB
  pm_cb : Nat → tBTA_JV_PM_CB

/-- A request handed to the worker: a closure bound by `do_in_bta_thread`
(named after the bound function) or a message sent with `bta_sys_sendmsg`
(named after its `hdr.event`).  Each constructor carries the fields the API
function fills in, in source order. -/
inductive Request where
  | bta_jv_enable (p_cback : Option Nat)
  | bta_jv_disable
  | bta_jv_get_channel_id (conn_type : Int) (channel : Int) (l2cap_id rfcomm_id : Nat)
  | bta_jv_free_scn (conn_type : Int) (channel : Nat)
  | BTA_JV_API_START_DISCOVERY_EVT (bd_addr num_uuid : Nat) (uuid_list : List Nat)
      (num_attr rfcomm_slot_id : Nat)
  | bta_jv_create_record (rfcomm_slot_id : Nat)
  | bta_jv_delete_record (handle : Nat)
  | bta_jv_l2cap_connect_le (remote_chan peer_bd_addr : Nat) (p_cback : Option Nat)
      (l2cap_socket_id : Nat)
  | bta_jv_l2cap_connect (conn_type : Int) (sec_mask role remote_psm rx_mtu peer_bd_addr : Nat)
      (cfg_copy ertm_copy : Option Nat) (p_cback : Option Nat) (l2cap_socket_id : Nat)
  | bta_jv_l2cap_close (handle p_cb : Nat)
  | BTA_JV_API_L2CAP_CLOSE_FIXED_EVT (handle : Nat)
  | BTA_JV_API_L2CAP_START_SERVER_EVT (type : Int) (sec_mask role local_psm rx_mtu : Nat)
      (cfg ertm : Option Nat) (p_cback : Option Nat) (l2cap_socket_id : Nat)
  | BTA_JV_API_L2CAP_START_SERVER_LE_EVT (sec_mask role local_chan rx_mtu : Nat)
      (cfg ertm : Option Nat) (p_cback : Option Nat) (l2cap_socket_id : Nat)
  | BTA_JV_API_L2CAP_STOP_SERVER_EVT (local_psm l2cap_socket_id : Nat)
  | BTA_JV_API_L2CAP_STOP_SERVER_LE_EVT (local_chan l2cap_socket_id : Nat)
  | BTA_JV_API_L2CAP_WRITE_EVT (handle req_id p_data p_cb len user_id : Nat)
  | BTA_JV_API_L2CAP_WRITE_FIXED_EVT (channel addr req_id p_data : Nat) (p_cback : Option Nat)
      (len user_id : Nat)
  | BTA_JV_API_RFCOMM_CONNECT_EVT (sec_mask role remote_scn peer_bd_addr : Nat)
      (p_cback : Option Nat) (rfcomm_slot_id : Nat)
  | BTA_JV_API_RFCOMM_CLOSE_EVT (handle p_cb p_pcb rfcomm_slot_id : Nat)
  | BTA_JV_API_RFCOMM_START_SERVER_EVT (sec_mask role local_scn max_session : Nat)
      (p_cback : Option Nat) (rfcomm_slot_id : Nat)
  | BTA_JV_API_RFCOMM_STOP_SERVER_EVT (handle rfcomm_slot_id : Nat)
  | BTA_JV_API_RFCOMM_WRITE_EVT (handle req_id p_cb p_pcb : Nat)
  | BTA_JV_API_SET_PM_PROFILE_EVT (handle app_id init_st : Nat)
  deriving DecidableEq, Repr

/-- A callback run in the caller's context, with the event data it is given. -/
inductive CbackCall where
  | BTA_JV_L2CAP_READ_EVT (p_cback : Nat) (status : tBTA_JV_STATUS)
      (handle req_id p_data len : Nat) (l2cap_socket_id : Nat)
  deriving DecidableEq, Repr

/-- Everything an API call can observe or change. -/
structure JvState where
  /-- The control-block pools. -/
  bta_jv_cb : tBTA_JV_CB
  /-- Requests waiting for the worker, oldest first. -/
  queue : List Request
  /-- Callbacks run so far in a caller's context, oldest first. -/
  cbacks : List CbackCall
  /-- Whether `BTA_ID_JV` is registered with the system manager, the answer of
  `bta_sys_is_register(BTA_ID_JV)`. -/
  jv_registered : Bool

/-- The external transport engine (`gap_api.h`), as far as the API functions
see it.  `GAP_ConnReadData handle p_data max_len` and `GAP_GetRxQueueCnt handle`
yield their result code together with the value they leave in the output
count, which holds 0 when they are called. -/
structure GapApi where
  /-- The result code for success. -/
  BT_PASS : Nat
  GAP_ConnReadData : Nat → Nat → Nat → Nat × Nat
  GAP_GetRxQueueCnt : Nat → Nat × Nat

/-! ## Posting to the worker -/

/-- Modelled from the spec: `do_in_bta_thread` is declared in
`bta_closure_api.h` and defined outside this file.  Section 4.2: every request
"is appended to a single ordered queue and drained by exactly one logical
worker". -/
def do_in_bta_thread (st : JvState) (r : Request) : JvState :=
  { st with queue := st.queue ++ [r] }

/-- Modelled from the spec: `bta_sys_sendmsg` is declared in `bta_sys.h` and
defined outside this file.  Section 4.2: every request "is appended to a
single ordered queue and drained by exactly one logical worker". -/
def bta_sys_sendmsg (st : JvState) (r : Request) : JvState :=
  { st with queue := st.queue ++ [r] }

/-! ## Bounds-checked reads of the pools -/

/-- Read `bta_jv_cb.rfc_cb[i]`; `none` when `i` is past the end of the array. -/
def rfc_cb_at (cfg : JvConfig) (cb : tBTA_JV_CB) (i : Nat) : Option tBTA_JV_RFC_CB :=
  if i < cfg.BTA_JV_MAX_RFC_CONN then some (cb.rfc_cb i) else none

/-- Read `p_cb->rfc_hdl[si]`; `none` when `si` is past the end of the array. -/
def rfc_hdl_at (cfg : JvConfig) (p_cb : tBTA_JV_RFC_CB) (si : Nat) : Option Nat :=
  if si < cfg.BTA_JV_MAX_RFC_SR_SESSION then some (p_cb.rfc_hdl si) else none

/-- Read `bta_jv_cb.port_cb[i]`; `none` when `i` is past the end of the array. -/
def port_cb_at (cfg : JvConfig) (cb : tBTA_JV_CB) (i : Nat) : Option tBTA_JV_PCB :=
  if i < cfg.MAX_RFC_PORTS then some (cb.port_cb i) else none

/-- Read `bta_jv_cb.l2c_cb[i]`; `none` when `i` is past the end of the array. -/
def l2c_cb_at (cfg : JvConfig) (cb : tBTA_JV_CB) (i : Nat) : Option tBTA_JV_L2C_CB :=
  if i < cfg.BTA_JV_MAX_L2C_CONN then some (cb.l2c_cb i) else none

/-! ## The RFCOMM handle codec -/

/-- The session index the RFCOMM functions decode:
`uint32_t hi = ((handle & BTA_JV_RFC_HDL_MASK) & ~BTA_JV_RFCOMM_MASK) - 1;` -/
def rfc_hi (cfg : JvConfig) (handle : Nat) : Nat :=
  sub32 ((handle &&& cfg.BTA_JV_RFC_HDL_MASK) &&& not32 cfg.BTA_JV_RFCOMM_MASK) 1

/-- The sub-session index the RFCOMM functions decode:
`uint32_t si = BTA_JV_RFC_HDL_TO_SIDX(handle);` -/
def rfc_si (cfg : JvConfig) (handle : Nat) : Nat :=
  cfg.BTA_JV_RFC_HDL_TO_SIDX handle

/-- Modelled from the spec: the encoder of RFCOMM handles is in
`bta_jv_act.cc`, which is not among the sources.  The handle of session slot
`hi` and sub-session `si` is `((hi + 1) | BTA_JV_RFCOMM_MASK) | (si << 8)`, a
32-bit value. -/
def rfc_encode (cfg : JvConfig) (hi si : Nat) : Nat :=
  (((hi + 1) ||| cfg.BTA_JV_RFCOMM_MASK) ||| (si <<< 8)) % 2 ^ 32

/-! ## API functions -/

open tBTA_JV_STATUS

/-- `BTA_JvGetChannelId(conn_type, id, channel)`. -/
def BTA_JvGetChannelId (cfg : JvConfig) (st : JvState) (conn_type : Int) (id : Nat)
    (channel : Int) : tBTA_JV_STATUS × JvState :=
  if conn_type ≠ cfg.BTA_JV_CONN_TYPE_RFCOMM ∧ conn_type ≠ cfg.BTA_JV_CONN_TYPE_L2CAP ∧
      conn_type ≠ cfg.BTA_JV_CONN_TYPE_L2CAP_LE then
    (BTA_JV_FAILURE, st)
  else
    (BTA_JV_SUCCESS, do_in_bta_thread st (.bta_jv_get_channel_id conn_type channel id id))

/-- `BTA_JvL2capConnectLE`; the unnamed parameters of the source are unused. -/
def BTA_JvL2capConnectLE (st : JvState) (_sec_mask remote_chan peer_bd_addr : Nat)
    (p_cback : Option Nat) (l2cap_socket_id : Nat) : tBTA_JV_STATUS × JvState :=
  if p_cback = none then (BTA_JV_FAILURE, st)
  else
    (BTA_JV_SUCCESS,
      do_in_bta_thread st
        (.bta_jv_l2cap_connect_le remote_chan peer_bd_addr p_cback l2cap_socket_id))

/-- `BTA_JvL2capConnect`; `cfg` and `ertm_info` are pointers that may be null
and are copied when they are not. -/
def BTA_JvL2capConnect (st : JvState) (conn_type : Int) (sec_mask role : Nat)
    (ertm_info : Option Nat) (remote_psm rx_mtu : Nat) (cfg : Option Nat) (peer_bd_addr : Nat)
    (p_cback : Option Nat) (l2cap_socket_id : Nat) : tBTA_JV_STATUS × JvState :=
  if p_cback = none then (BTA_JV_FAILURE, st)
  else
    let cfg_copy : Option Nat := match cfg with
      | some c => some c
      | none => none
    let ertm_copy : Option Nat := match ertm_info with
      | some e => some e
      | none => none
    (BTA_JV_SUCCESS,
      do_in_bta_thread st
        (.bta_jv_l2cap_connect conn_type sec_mask role remote_psm rx_mtu peer_bd_addr cfg_copy
          ertm_copy p_cback l2cap_socket_id))

/-- `BTA_JvL2capClose(handle)`. -/
def BTA_JvL2capClose (cfg : JvConfig) (st : JvState) (handle : Nat) :
    Option (tBTA_JV_STATUS × JvState) :=
  if handle ≥ cfg.BTA_JV_MAX_L2C_CONN then some (BTA_JV_FAILURE, st)
  else
    (l2c_cb_at cfg st.bta_jv_cb handle).bind fun cb =>
      if cb.p_cback = none then some (BTA_JV_FAILURE, st)
      else some (BTA_JV_SUCCESS, do_in_bta_thread st (.bta_jv_l2cap_close handle handle))

/-- `BTA_JvL2capCloseLE(handle)`. -/
def BTA_JvL2capCloseLE (st : JvState) (handle : Nat) : tBTA_JV_STATUS × JvState :=
  (BTA_JV_SUCCESS, bta_sys_sendmsg st (.BTA_JV_API_L2CAP_CLOSE_FIXED_EVT handle))

/-- `BTA_JvL2capStartServer`. -/
def BTA_JvL2capStartServer (st : JvState) (conn_type : Int) (sec_mask role : Nat)
    (ertm_info : Option Nat) (local_psm rx_mtu : Nat) (cfg : Option Nat)
    (p_cback : Option Nat) (l2cap_socket_id : Nat) : tBTA_JV_STATUS × JvState :=
  if p_cback = none then (BTA_JV_FAILURE, st)
  else
    (BTA_JV_SUCCESS,
      bta_sys_sendmsg st
        (.BTA_JV_API_L2CAP_START_SERVER_EVT conn_type sec_mask role local_psm rx_mtu cfg
          ertm_info p_cback l2cap_socket_id))

/-- `BTA_JvL2capStartServerLE`. -/
def BTA_JvL2capStartServerLE (st : JvState) (sec_mask role : Nat) (ertm_info : Option Nat)
    (local_chan rx_mtu : Nat) (cfg : Option Nat) (p_cback : Option Nat)
    (l2cap_socket_id : Nat) : tBTA_JV_STATUS × JvState :=
  if p_cback = none then (BTA_JV_FAILURE, st)
  else
    (BTA_JV_SUCCESS,
      bta_sys_sendmsg st
        (.BTA_JV_API_L2CAP_START_SERVER_LE_EVT sec_mask role local_chan rx_mtu cfg ertm_info
          p_cback l2cap_socket_id))

/-- `BTA_JvL2capRead(handle, req_id, p_data, len)`: the read is done and the
callback is run before the function returns. -/
def BTA_JvL2capRead (cfg : JvConfig) (gap : GapApi) (st : JvState)
    (handle req_id p_data len : Nat) : Option (tBTA_JV_STATUS × JvState) :=
  if handle < cfg.BTA_JV_MAX_L2C_CONN then
    (l2c_cb_at cfg st.bta_jv_cb handle).bind fun cb =>
      match cb.p_cback with
      | some c =>
        let res := gap.GAP_ConnReadData (handle % 2 ^ 16) p_data len
        let evt_status := if gap.BT_PASS = res.1 then BTA_JV_SUCCESS else BTA_JV_FAILURE
        some (BTA_JV_SUCCESS,
          { st with
            cbacks := st.cbacks ++
              [.BTA_JV_L2CAP_READ_EVT c evt_status handle req_id p_data res.2
                cb.l2cap_socket_id] })
      | none => some (BTA_JV_FAILURE, st)
  else some (BTA_JV_FAILURE, st)

/-- `BTA_JvL2capReady(handle, p_data_size)`; `p_data_size` says whether the
output pointer is non-null, and the third component of the result is the value
left in `*p_data_size` when something was stored there. -/
def BTA_JvL2capReady (cfg : JvConfig) (gap : GapApi) (st : JvState) (handle : Nat)
    (p_data_size : Bool) : Option (tBTA_JV_STATUS × JvState × Option Nat) :=
  if p_data_size then
    if handle < cfg.BTA_JV_MAX_L2C_CONN then
      (l2c_cb_at cfg st.bta_jv_cb handle).bind fun cb =>
        if cb.p_cback.isSome then
          let res := gap.GAP_GetRxQueueCnt (handle % 2 ^ 16)
          if gap.BT_PASS = res.1 then some (BTA_JV_SUCCESS, st, some res.2)
          else some (BTA_JV_FAILURE, st, some res.2)
        else some (BTA_JV_FAILURE, st, none)
    else some (BTA_JV_FAILURE, st, none)
  else some (BTA_JV_FAILURE, st, none)

/-- `BTA_JvL2capWrite(handle, req_id, p_data, len, user_id)`. -/
def BTA_JvL2capWrite (cfg : JvConfig) (st : JvState) (handle req_id p_data len user_id : Nat) :
    Option (tBTA_JV_STATUS × JvState) :=
  if handle < cfg.BTA_JV_MAX_L2C_CONN then
    (l2c_cb_at cfg st.bta_jv_cb handle).bind fun cb =>
      if cb.p_cback.isSome then
        some (BTA_JV_SUCCESS,
          bta_sys_sendmsg st
            (.BTA_JV_API_L2CAP_WRITE_EVT handle req_id p_data handle len user_id))
      else some (BTA_JV_FAILURE, st)
  else some (BTA_JV_FAILURE, st)

/-- `BTA_JvRfcommConnect`. -/
def BTA_JvRfcommConnect (st : JvState) (sec_mask role remote_scn peer_bd_addr : Nat)
    (p_cback : Option Nat) (rfcomm_slot_id : Nat) : tBTA_JV_STATUS × JvState :=
  if p_cback = none then (BTA_JV_FAILURE, st)
  else
    (BTA_JV_SUCCESS,
      bta_sys_sendmsg st
        (.BTA_JV_API_RFCOMM_CONNECT_EVT sec_mask role remote_scn peer_bd_addr p_cback
          rfcomm_slot_id))

/-- `BTA_JvRfcommClose(handle, rfcomm_slot_id)`.  The conjunction of the source
is evaluated left to right and stops at the first false operand. -/
def BTA_JvRfcommClose (cfg : JvConfig) (st : JvState) (handle rfcomm_slot_id : Nat) :
    Option (tBTA_JV_STATUS × JvState) :=
  let hi := rfc_hi cfg handle
  let si := rfc_si cfg handle
  if hi < cfg.BTA_JV_MAX_RFC_CONN then
    (rfc_cb_at cfg st.bta_jv_cb hi).bind fun cb =>
      if cb.p_cback.isSome then
        if si < cfg.BTA_JV_MAX_RFC_SR_SESSION then
          (rfc_hdl_at cfg cb si).bind fun h =>
            if h ≠ 0 then
              some (BTA_JV_SUCCESS,
                bta_sys_sendmsg st
                  (.BTA_JV_API_RFCOMM_CLOSE_EVT handle hi (h - 1) rfcomm_slot_id))
            else some (BTA_JV_FAILURE, st)
        else some (BTA_JV_FAILURE, st)
      else some (BTA_JV_FAILURE, st)
  else some (BTA_JV_FAILURE, st)

/-- `BTA_JvRfcommStartServer`; `max_session` is a `uint8_t`, so the assignment
of the ceiling to it keeps the low eight bits. -/
def BTA_JvRfcommStartServer (cfg : JvConfig) (st : JvState)
    (sec_mask role local_scn max_session : Nat) (p_cback : Option Nat)
    (rfcomm_slot_id : Nat) : tBTA_JV_STATUS × JvState :=
  if p_cback = none then (BTA_JV_FAILURE, st)
  else
    let max_session := if max_session = 0 then 1 else max_session
    let max_session :=
      if max_session > cfg.BTA_JV_MAX_RFC_SR_SESSION then cfg.BTA_JV_MAX_RFC_SR_SESSION % 2 ^ 8
      else max_session
    (BTA_JV_SUCCESS,
      bta_sys_sendmsg st
        (.BTA_JV_API_RFCOMM_START_SERVER_EVT sec_mask role local_scn max_session p_cback
          rfcomm_slot_id))

/-- `BTA_JvRfcommGetPortHdl(handle)`. -/
def BTA_JvRfcommGetPortHdl (cfg : JvConfig) (st : JvState) (handle : Nat) : Option Nat :=
  let hi := rfc_hi cfg handle
  let si := rfc_si cfg handle
  if hi < cfg.BTA_JV_MAX_RFC_CONN then
    if si < cfg.BTA_JV_MAX_RFC_SR_SESSION then
      (rfc_cb_at cfg st.bta_jv_cb hi).bind fun cb =>
        (rfc_hdl_at cfg cb si).bind fun h =>
          if h ≠ 0 then (port_cb_at cfg st.bta_jv_cb (h - 1)).map fun pcb => pcb.port_handle
          else some 0xffff
    else some 0xffff
  else some 0xffff

/-- `BTA_JvRfcommWrite(handle, req_id)`. -/
def BTA_JvRfcommWrite (cfg : JvConfig) (st : JvState) (handle req_id : Nat) :
    Option (tBTA_JV_STATUS × JvState) :=
  let hi := rfc_hi cfg handle
  let si := rfc_si cfg handle
  if hi < cfg.BTA_JV_MAX_RFC_CONN then
    (rfc_cb_at cfg st.bta_jv_cb hi).bind fun cb =>
      if cb.p_cback.isSome then
        if si < cfg.BTA_JV_MAX_RFC_SR_SESSION then
          (rfc_hdl_at cfg cb si).bind fun h =>
            if h ≠ 0 then
              some (BTA_JV_SUCCESS,
                bta_sys_sendmsg st (.BTA_JV_API_RFCOMM_WRITE_EVT handle req_id hi (h - 1)))
            else some (BTA_JV_FAILURE, st)
        else some (BTA_JV_FAILURE, st)
      else some (BTA_JV_FAILURE, st)
  else some (BTA_JV_FAILURE, st)

/-- The contents of `bta_jv_cb` once `BTA_JvEnable` has run
`memset(&bta_jv_cb, 0, sizeof(tBTA_JV_CB))` and then set the handle of each of
the `BTA_JV_PM_MAX_NUM` power-mode entries to `BTA_JV_PM_HANDLE_CLEAR`. -/
def enabledCb (cfg : JvConfig) : tBTA_JV_CB where
  rfc_cb := fun _ => { p_cback := none, rfc_hdl := fun _ => 0 }
  port_cb := fun _ => { port_handle := 0 }
  l2c_cb := fun _ => { p_cback := none, l2cap_socket_id := 0 }
  pm_cb := fun i =>
    { handle := if i < cfg.BTA_JV_PM_MAX_NUM then cfg.BTA_JV_PM_HANDLE_CLEAR else 0
      app_id := 0
      state := 0 }

/-- `BTA_JvEnable(p_cback)`.  `bta_sys_is_register(BTA_ID_JV)` reads the
registration flag and `bta_sys_register(BTA_ID_JV, ...)` sets it. -/
def BTA_JvEnable (cfg : JvConfig) (st : JvState) (p_cback : Option Nat) :
    tBTA_JV_STATUS × JvState :=
  if p_cback.isSome ∧ st.jv_registered = false then
    let st1 : JvState := { st with bta_jv_cb := enabledCb cfg, jv_registered := true }
    if p_cback.isSome then (BTA_JV_SUCCESS, do_in_bta_thread st1 (.bta_jv_enable p_cback))
    else (BTA_JV_FAILURE, st1)
  else (BTA_JV_FAILURE, st)

/-- `BTA_JvDisable()`; `bta_sys_deregister(BTA_ID_JV)` clears the registration
flag. -/
def BTA_JvDisable (st : JvState) : JvState :=
  do_in_bta_thread { st with jv_registered := false } .bta_jv_disable

/-- `BTA_JvFreeChannel(channel, conn_type)`. -/
def BTA_JvFreeChannel (st : JvState) (channel : Nat) (conn_type : Int) :
    tBTA_JV_STATUS × JvState :=
  (BTA_JV_SUCCESS, do_in_bta_thread st (.bta_jv_free_scn conn_type channel))

/-- `BTA_JvStartDiscovery(bd_addr, num_uuid, p_uuid_list, rfcomm_slot_id)`.
`p_uuid_list` is the caller's array.  The unchecked
`memcpy(p_msg->uuid_list, p_uuid_list, num_uuid * sizeof(Uuid))` copies its
first `num_uuid` entries into the message; the result is `none` when that copy
reads past the end of the caller's array or writes past the end of
`uuid_list[BTA_JV_MAX_UUIDS]`. -/
def BTA_JvStartDiscovery (cfg : JvConfig) (st : JvState) (bd_addr num_uuid : Nat)
    (p_uuid_list : List Nat) (rfcomm_slot_id : Nat) : Option (tBTA_JV_STATUS × JvState) :=
  if num_uuid ≤ cfg.BTA_JV_MAX_UUIDS ∧ num_uuid ≤ p_uuid_list.length then
    some (BTA_JV_SUCCESS,
      bta_sys_sendmsg st
        (.BTA_JV_API_START_DISCOVERY_EVT bd_addr num_uuid (p_uuid_list.take num_uuid) 0
          rfcomm_slot_id))
  else none

/-- `BTA_JvCreateRecordByUser(rfcomm_slot_id)`. -/
def BTA_JvCreateRecordByUser (st : JvState) (rfcomm_slot_id : Nat) :
    tBTA_JV_STATUS × JvState :=
  (BTA_JV_SUCCESS, do_in_bta_thread st (.bta_jv_create_record rfcomm_slot_id))

/-- `BTA_JvDeleteRecord(handle)`. -/
def BTA_JvDeleteRecord (st : JvState) (handle : Nat) : tBTA_JV_STATUS × JvState :=
  (BTA_JV_SUCCESS, do_in_bta_thread st (.bta_jv_delete_record handle))

/-- `BTA_JvL2capStopServer(local_psm, l2cap_socket_id)`. -/
def BTA_JvL2capStopServer (st : JvState) (local_psm l2cap_socket_id : Nat) :
    tBTA_JV_STATUS × JvState :=
  (BTA_JV_SUCCESS,
    bta_sys_sendmsg st (.BTA_JV_API_L2CAP_STOP_SERVER_EVT local_psm l2cap_socket_id))

/-- `BTA_JvL2capStopServerLE(local_chan, l2cap_socket_id)`. -/
def BTA_JvL2capStopServerLE (st : JvState) (local_chan l2cap_socket_id : Nat) :
    tBTA_JV_STATUS × JvState :=
  (BTA_JV_SUCCESS,
    bta_sys_sendmsg st (.BTA_JV_API_L2CAP_STOP_SERVER_LE_EVT local_chan l2cap_socket_id))

/-- `BTA_JvL2capWriteFixed(channel, addr, req_id, p_cback, p_data, len, user_id)`. -/
def BTA_JvL2capWriteFixed (st : JvState) (channel addr req_id : Nat) (p_cback : Option Nat)
    (p_data len user_id : Nat) : tBTA_JV_STATUS × JvState :=
  (BTA_JV_SUCCESS,
    bta_sys_sendmsg st
      (.BTA_JV_API_L2CAP_WRITE_FIXED_EVT channel addr req_id p_data p_cback len user_id))

/-- `BTA_JvRfcommStopServer(handle, rfcomm_slot_id)`. -/
def BTA_JvRfcommStopServer (st : JvState) (handle rfcomm_slot_id : Nat) :
    tBTA_JV_STATUS × JvState :=
  (BTA_JV_SUCCESS,
    bta_sys_sendmsg st (.BTA_JV_API_RFCOMM_STOP_SERVER_EVT handle rfcomm_slot_id))

/-- `BTA_JvSetPmProfile(handle, app_id, init_st)`. -/
def BTA_JvSetPmProfile (st : JvState) (handle app_id init_st : Nat) :
    tBTA_JV_STATUS × JvState :=
  (BTA_JV_SUCCESS, bta_sys_sendmsg st (.BTA_JV_API_SET_PM_PROFILE_EVT handle app_id init_st))

/-! ## The submission interface as a whole -/

/-- One call of a submission function of `bta_jv_api.cc`, with its arguments in
source order (unused, unnamed parameters left out). -/
inductive ApiCall where
  | BTA_JvEnable (p_cback : Option Nat)
  | BTA_JvDisable
  | BTA_JvGetChannelId (conn_type : Int) (id : Nat) (channel : Int)
  | BTA_JvFreeChannel (channel : Nat) (conn_type : Int)
  | BTA_JvStartDiscovery (bd_addr num_uuid : Nat) (p_uuid_list : List Nat)
      (rfcomm_slot_id : Nat)
  | BTA_JvCreateRecordByUser (rfcomm_slot_id : Nat)
  | BTA_JvDeleteRecord (handle : Nat)
  | BTA_JvL2capConnectLE (sec_mask remote_chan peer_bd_addr : Nat) (p_cback : Option Nat)
      (l2cap_socket_id : Nat)
  | BTA_JvL2capConnect (conn_type : Int) (sec_mask role : Nat) (ertm_info : Option Nat)
      (remote_psm rx_mtu : Nat) (cfg : Option Nat) (peer_bd_addr : Nat)
      (p_cback : Option Nat) (l2cap_socket_id : Nat)
  | BTA_JvL2capClose (handle : Nat)
  | BTA_JvL2capCloseLE (handle : Nat)
  | BTA_JvL2capStartServer (conn_type : Int) (sec_mask role : Nat) (ertm_info : Option Nat)
      (local_psm rx_mtu : Nat) (cfg : Option Nat) (p_cback : Option Nat)
      (l2cap_socket_id : Nat)
  | BTA_JvL2capStartServerLE (sec_mask role : Nat) (ertm_info : Option Nat)
      (local_chan rx_mtu : Nat) (cfg : Option Nat) (p_cback : Option Nat)
      (l2cap_socket_id : Nat)
  | BTA_JvL2capStopServer (local_psm l2cap_socket_id : Nat)
  | BTA_JvL2capStopServerLE (local_chan l2cap_socket_id : Nat)
  | BTA_JvL2capRead (handle req_id p_data len : Nat)
  | BTA_JvL2capReady (handle : Nat) (p_data_size : Bool)
  | BTA_JvL2capWrite (handle req_id p_data len user_id : Nat)
  | BTA_JvL2capWriteFixed (channel addr req_id : Nat) (p_cback : Option Nat)
      (p_data len user_id : Nat)
  | BTA_JvRfcommConnect (sec_mask role remote_scn peer_bd_addr : Nat) (p_cback : Option Nat)
      (rfcomm_slot_id : Nat)
  | BTA_JvRfcommClose (handle rfcomm_slot_id : Nat)
  | BTA_JvRfcommStartServer (sec_mask role local_scn max_session : Nat)
      (p_cback : Option Nat) (rfcomm_slot_id : Nat)
  | BTA_JvRfcommStopServer (handle rfcomm_slot_id : Nat)
  | BTA_JvRfcommWrite (handle req_id : Nat)
  | BTA_JvSetPmProfile (handle app_id init_st : Nat)
  deriving DecidableEq, Repr

/-- Run one call: the status it returns (`none` for the `void` function
`BTA_JvDisable`) and the state it leaves; the whole result is `none` when the
call would read or write past the end of an array. -/
def apiStep (cfg : JvConfig) (gap : GapApi) (st : JvState) :
    ApiCall → Option (Option tBTA_JV_STATUS × JvState)
  | .BTA_JvEnable p_cback =>
    let r := BTA_JvEnable cfg st p_cback
    some (some r.1, r.2)
  | .BTA_JvDisable => some (none, BTA_JvDisable st)
  | .BTA_JvGetChannelId conn_type id channel =>
    let r := BTA_JvGetChannelId cfg st conn_type id channel
    some (some r.1, r.2)
  | .BTA_JvFreeChannel channel conn_type =>
    let r := BTA_JvFreeChannel st channel conn_type
    some (some r.1, r.2)
  | .BTA_JvStartDiscovery bd_addr num_uuid p_uuid_list rfcomm_slot_id =>
    (BTA_JvStartDiscovery cfg st bd_addr num_uuid p_uuid_list rfcomm_slot_id).map
      fun r => (some r.1, r.2)
  | .BTA_JvCreateRecordByUser rfcomm_slot_id =>
    let r := BTA_JvCreateRecordByUser st rfcomm_slot_id
    some (some r.1, r.2)
  | .BTA_JvDeleteRecord handle =>
    let r := BTA_JvDeleteRecord st handle
    some (some r.1, r.2)
  | .BTA_JvL2capConnectLE sec_mask remote_chan peer_bd_addr p_cback l2cap_socket_id =>
    let r := BTA_JvL2capConnectLE st sec_mask remote_chan peer_bd_addr p_cback l2cap_socket_id
    some (some r.1, r.2)
  | .BTA_JvL2capConnect conn_type sec_mask role ertm_info remote_psm rx_mtu l2cfg peer_bd_addr
      p_cback l2cap_socket_id =>
    let r := BTA_JvL2capConnect st conn_type sec_mask role ertm_info remote_psm rx_mtu l2cfg
      peer_bd_addr p_cback l2cap_socket_id
    some (some r.1, r.2)
  | .BTA_JvL2capClose handle =>
    (BTA_JvL2capClose cfg st handle).map fun r => (some r.1, r.2)
  | .BTA_JvL2capCloseLE handle =>
    let r := BTA_JvL2capCloseLE st handle
    some (some r.1, r.2)
  | .BTA_JvL2capStartServer conn_type sec_mask role ertm_info local_psm rx_mtu l2cfg p_cback
      l2cap_socket_id =>
    let r := BTA_JvL2capStartServer st conn_type sec_mask role ertm_info local_psm rx_mtu l2cfg
      p_cback l2cap_socket_id
    some (some r.1, r.2)
  | .BTA_JvL2capStartServerLE sec_mask role ertm_info local_chan rx_mtu l2cfg p_cback
      l2cap_socket_id =>
    let r := BTA_JvL2capStartServerLE st sec_mask role ertm_info local_chan rx_mtu l2cfg p_cback
      l2cap_socket_id
    some (some r.1, r.2)
  | .BTA_JvL2capStopServer local_psm l2cap_socket_id =>
    let r := BTA_JvL2capStopServer st local_psm l2cap_socket_id
    some (some r.1, r.2)
  | .BTA_JvL2capStopServerLE local_chan l2cap_socket_id =>
    let r := BTA_JvL2capStopServerLE st local_chan l2cap_socket_id
    some (some r.1, r.2)
  | .BTA_JvL2capRead handle req_id p_data len =>
    (BTA_JvL2capRead cfg gap st handle req_id p_data len).map fun r => (some r.1, r.2)
  | .BTA_JvL2capReady handle p_data_size =>
    (BTA_JvL2capReady cfg gap st handle p_data_size).map fun r => (some r.1, r.2.1)
  | .BTA_JvL2capWrite handle req_id p_data len user_id =>
    (BTA_JvL2capWrite cfg st handle req_id p_data len user_id).map fun r => (some r.1, r.2)
  | .BTA_JvL2capWriteFixed channel addr req_id p_cback p_data len user_id =>
    let r := BTA_JvL2capWriteFixed st channel addr req_id p_cback p_data len user_id
    some (some r.1, r.2)
  | .BTA_JvRfcommConnect sec_mask role remote_scn peer_bd_addr p_cback rfcomm_slot_id =>
    let r := BTA_JvRfcommConnect st sec_mask role remote_scn peer_bd_addr p_cback rfcomm_slot_id
    some (some r.1, r.2)
  | .BTA_JvRfcommClose handle rfcomm_slot_id =>
    (BTA_JvRfcommClose cfg st handle rfcomm_slot_id).map fun r => (some r.1, r.2)
  | .BTA_JvRfcommStartServer sec_mask role local_scn max_session p_cback rfcomm_slot_id =>
    let r := BTA_JvRfcommStartServer cfg st sec_mask role local_scn max_session p_cback
      rfcomm_slot_id
    some (some r.1, r.2)
  | .BTA_JvRfcommStopServer handle rfcomm_slot_id =>
    let r := BTA_JvRfcommStopServer st handle rfcomm_slot_id
    some (some r.1, r.2)
  | .BTA_JvRfcommWrite handle req_id =>
    (BTA_JvRfcommWrite cfg st handle req_id).map fun r => (some r.1, r.2)
  | .BTA_JvSetPmProfile handle app_id init_st =>
    let r := BTA_JvSetPmProfile st handle app_id init_st
    some (some r.1, r.2)

/-- Run a sequence of calls, each in the state the previous one left. -/
def runCalls (cfg : JvConfig) (gap : GapApi) : JvState → List ApiCall → Option JvState
  | st, [] => some st
  | st, c :: cs => (apiStep cfg gap st c).bind fun r => runCalls cfg gap r.2 cs

/-- Whether a call is a `BTA_JvL2capRead`. -/
def ApiCall.isL2capRead : ApiCall → Bool
  | .BTA_JvL2capRead _ _ _ _ => true
  | _ => false

/-- Whether the one `memcpy` of the file, in `BTA_JvStartDiscovery`, stays
inside the caller's array and inside `uuid_list[BTA_JV_MAX_UUIDS]`; no other
call copies anything. -/
def ApiCall.copyInBounds (cfg : JvConfig) : ApiCall → Prop
  | .BTA_JvStartDiscovery _ num_uuid p_uuid_list _ =>
    num_uuid ≤ cfg.BTA_JV_MAX_UUIDS ∧ num_uuid ≤ p_uuid_list.length
  | _ => True

instance (cfg : JvConfig) (call : ApiCall) : Decidable (call.copyInBounds cfg) := by
  cases call <;> unfold ApiCall.copyInBounds <;> infer_instance

/-- The two calls that go straight to the transport and never post a request:
`BTA_JvL2capRead` and `BTA_JvL2capReady`. -/
def ApiCall.isSyncQuery : ApiCall → Bool
  | .BTA_JvL2capRead _ _ _ _ => true
  | .BTA_JvL2capReady _ _ => true
  | _ => false

/-- Whether a call that came back with `res` was accepted for queuing: it is
not one of the two transport queries and it did not return `BTA_JV_FAILURE`. -/
def acceptedForQueuing (call : ApiCall) (res : Option tBTA_JV_STATUS) : Bool :=
  !call.isSyncQuery && decide (res ≠ some BTA_JV_FAILURE)

/-- The requests a run of calls put on the queue, call by call: what each call
left on the queue beyond what it found there. -/
def submitted (cfg : JvConfig) (gap : GapApi) : JvState → List ApiCall → List Request
  | _, [] => []
  | st, c :: cs =>
    match apiStep cfg gap st c with
    | none => []
    | some r => r.2.queue.drop st.queue.length ++ submitted cfg gap r.2 cs

/-- The number of calls of a run that were accepted for queuing. -/
def acceptedCount (cfg : JvConfig) (gap : GapApi) : JvState → List ApiCall → Nat
  | _, [] => 0
  | st, c :: cs =>
    match apiStep cfg gap st c with
    | none => 0
    | some r => (if acceptedForQueuing c r.1 then 1 else 0) + acceptedCount cfg gap r.2 cs

/-! ## The worker -/

/-- Modelled from the spec: the worker that drains the queue is outside this
file.  Section 9: "callers enqueue and return immediately, worker drains
strictly in FIFO order".  One step takes the oldest request off the queue. -/
def worker_step (st : JvState) : Option (Request × JvState) :=
  match st.queue with
  | [] => none
  | r :: rest => some (r, { st with queue := rest })

/-- The requests the worker takes in its first `n` steps, in the order it takes
them (fewer when the queue runs empty). -/
def worker_trace : Nat → JvState → List Request
  | 0, _ => []
  | n + 1, st =>
    match worker_step st with
    | none => []
    | some (r, st1) => r :: worker_trace n st1

/-! ## The worker's side of an L2CAP close -/

/-- Modelled from the spec: the handler `bta_jv_l2cap_close(handle, p_cb)` that
the worker runs for a queued PSM-based close is in `bta_jv_act.cc`, which is not
among the sources.  Section 3: an L2CAP control block is "cleared (callback
reference set to empty) on close". -/
def bta_jv_l2cap_close (st : JvState) (_handle p_cb : Nat) : JvState :=
  { st with
    bta_jv_cb :=
      { st.bta_jv_cb with
        l2c_cb := fun i =>
          if i = p_cb then { st.bta_jv_cb.l2c_cb i with p_cback := none }
          else st.bta_jv_cb.l2c_cb i } }

/-! ## What the specification says, in its own words -/

/-- Section 4.3, "Close: valid only if `hi` is in range, has a registered
callback, `si` is in range, and the targeted `(hi, si)` sub-session has an
assigned port". -/
def spec_rfc_handle_valid (cfg : JvConfig) (st : JvState) (handle : Nat) : Prop :=
  rfc_hi cfg handle < cfg.BTA_JV_MAX_RFC_CONN ∧
    (st.bta_jv_cb.rfc_cb (rfc_hi cfg handle)).p_cback ≠ none ∧
    rfc_si cfg handle < cfg.BTA_JV_MAX_RFC_SR_SESSION ∧
    (st.bta_jv_cb.rfc_cb (rfc_hi cfg handle)).rfc_hdl (rfc_si cfg handle) ≠ 0

instance (cfg : JvConfig) (st : JvState) (handle : Nat) :
    Decidable (spec_rfc_handle_valid cfg st handle) := by
  unfold spec_rfc_handle_valid
  infer_instance

/-- Sections 3 and 4.3, the life of an RFCOMM control block: it is "destroyed
(cleared to the unused sentinel) when all its sub-sessions close", and "when the
last occupied `si` under an `hi` is cleared ... the `hi` slot returns to
UNALLOCATED".  So a slot of the pool that has no callback holds no port
reference. -/
def spec_rfc_lifecycle (cfg : JvConfig) (cb : tBTA_JV_CB) : Prop :=
  ∀ hi, hi < cfg.BTA_JV_MAX_RFC_CONN → (cb.rfc_cb hi).p_cback = none →
    ∀ si, si < cfg.BTA_JV_MAX_RFC_SR_SESSION → (cb.rfc_cb hi).rfc_hdl si = 0

instance (cfg : JvConfig) (cb : tBTA_JV_CB) : Decidable (spec_rfc_lifecycle cfg cb) := by
  unfold spec_rfc_lifecycle
  infer_instance

/-- Section 4.3, "clamps the requested maximum concurrent sessions to
`[1, MAX_SESSIONS_PER_SCN]`". -/
def spec_clamp_max_session (cfg : JvConfig) (m : Nat) : Nat :=
  if m = 0 then 1
  else if m > cfg.BTA_JV_MAX_RFC_SR_SESSION then cfg.BTA_JV_MAX_RFC_SR_SESSION
  else m

/-- Section 4.4, "PSM-based close requires a pre-existing registered callback":
the flat handle is in `[0, MAX_L2C_CONN)` and its block has a callback. -/
def spec_l2c_handle_registered (cfg : JvConfig) (st : JvState) (handle : Nat) : Prop :=
  handle < cfg.BTA_JV_MAX_L2C_CONN ∧ (st.bta_jv_cb.l2c_cb handle).p_cback ≠ none

instance (cfg : JvConfig) (st : JvState) (handle : Nat) :
    Decidable (spec_l2c_handle_registered cfg st handle) := by
  unfold spec_l2c_handle_registered
  infer_instance

/-! ## Sample states -/

/-- The pools after `memset(&bta_jv_cb, 0, ...)`: no callbacks, no ports. -/
def emptyCb : tBTA_JV_CB where
  rfc_cb := fun _ => { p_cback := none, rfc_hdl := fun _ => 0 }
  port_cb := fun _ => { port_handle := 0 }
  l2c_cb := fun _ => { p_cback := none, l2cap_socket_id := 0 }
  pm_cb := fun _ => { handle := 0, app_id := 0, state := 0 }

/-- Nothing allocated, nothing queued. -/
def emptyState : JvState where
  bta_jv_cb := emptyCb
  queue := []
  cbacks := []
  jv_registered := false

/-- One open RFCOMM session and one open L2CAP channel: `rfc_cb[2]` has callback
7 and its sub-session 1 refers to `port_cb[4]`, whose port handle is `0x21`;
`l2c_cb[3]` has callback 9 and socket id 100. -/
def sampleState : JvState where
  bta_jv_cb :=
    { rfc_cb := fun i =>
        if i = 2 then { p_cback := some 7, rfc_hdl := fun s => if s = 1 then 5 else 0 }
        else { p_cback := none, rfc_hdl := fun _ => 0 }
      port_cb := fun i => if i = 4 then { port_handle := 0x21 } else { port_handle := 0 }
      l2c_cb := fun i =>
        if i = 3 then { p_cback := some 9, l2cap_socket_id := 100 }
        else { p_cback := none, l2cap_socket_id := 0 }
      pm_cb := fun _ => { handle := 0xFF, app_id := 0, state := 0 } }
  queue := []
  cbacks := []
  jv_registered := true

/-- A session block whose callback is gone while a port reference is still in
place: `rfc_cb[2]` has no callback, its sub-session 1 refers to `port_cb[4]`,
whose port handle is `0x21`. -/
def staleState : JvState where
  bta_jv_cb :=
    { rfc_cb := fun i =>
        if i = 2 then { p_cback := none, rfc_hdl := fun s => if s = 1 then 5 else 0 }
        else { p_cback := none, rfc_hdl := fun _ => 0 }
      port_cb := fun i => if i = 4 then { port_handle := 0x21 } else { port_handle := 0 }
      l2c_cb := fun _ => { p_cback := none, l2cap_socket_id := 0 }
      pm_cb := fun _ => { handle := 0xFF, app_id := 0, state := 0 } }
  queue := []
  cbacks := []
  jv_registered := true

/-- A transport whose reads pass (result code 0) and fill the whole buffer, and
whose receive queue holds 5 bytes. -/
def sampleGap : GapApi where
  BT_PASS := 0
  GAP_ConnReadData := fun _ _ len => (0, len)
  GAP_GetRxQueueCnt := fun _ => (0, 5)

/-! ## Arithmetic of the handle layout -/

set_option maxRecDepth 100000 in
theorem and_clear_bit7 : ∀ x < 256, x &&& 0xFFFFFF7F = x % 128 := by decide

theorem not32_marker : not32 0x80 = 0xFFFFFF7F := by decide

theorem marker_or (x : Nat) (hx : x < 0x80) : x ||| 0x80 = 0x80 + x := by
  have h := Nat.mul_add_lt_is_or (i := 7) (b := x) (by simpa using hx) 1
  rw [Nat.or_comm]
  simpa using h.symm

theorem or_shift8 (a si : Nat) (ha : a < 0x100) : a ||| (si <<< 8) = 0x100 * si + a := by
  have h := Nat.mul_add_lt_is_or (i := 8) (b := a) (by simpa using ha) si
  rw [Nat.or_comm, Nat.shiftLeft_eq]
  simpa [Nat.mul_comm] using h.symm

theorem second_byte (x : Nat) : (x &&& 0xFF00) >>> 8 = x / 0x100 % 0x100 := by
  apply Nat.eq_of_testBit_eq
  intro i
  have h1 : x / 0x100 % 0x100 = (x >>> 8) % 2 ^ 8 := by
    rw [Nat.shiftRight_eq_div_pow]; norm_num
  have h2 : (0xFF00 : Nat) = (2 ^ 8 - 1) <<< 8 := by decide
  rw [h1, Nat.testBit_shiftRight, Nat.testBit_and, Nat.testBit_mod_two_pow,
    Nat.testBit_shiftRight, h2, Nat.testBit_shiftLeft, Nat.testBit_two_pow_sub_one]
  simp [Bool.and_comm]

theorem low_byte (x : Nat) : x &&& 0xFF = x % 0x100 :=
  Nat.and_pow_two_sub_one_eq_mod x 8

/-- The numeric value of an encoded handle under the header layout. -/
theorem rfc_encode_val (cfg : JvConfig) (hL : cfg.HeaderLayout) (hi si : Nat)
    (hhi : hi < 0x7F) (hsi : si < 0x100) :
    rfc_encode cfg hi si = 0x100 * si + (0x80 + (hi + 1)) := by
  obtain ⟨_, hR, _⟩ := hL
  unfold rfc_encode
  rw [hR, marker_or (hi + 1) (by omega), or_shift8 _ si (by omega)]
  omega

theorem rfc_hi_encode (cfg : JvConfig) (hL : cfg.HeaderLayout) (hi si : Nat)
    (hhi : hi < 0x7F) (hsi : si < 0x100) : rfc_hi cfg (rfc_encode cfg hi si) = hi := by
  rw [rfc_encode_val cfg hL hi si hhi hsi]
  obtain ⟨hM, hR, _⟩ := hL
  unfold rfc_hi
  rw [hM, hR, not32_marker, low_byte]
  have hlow : (0x100 * si + (0x80 + (hi + 1))) % 0x100 = 0x80 + (hi + 1) := by omega
  rw [hlow, and_clear_bit7 _ (by omega)]
  unfold sub32
  omega

theorem rfc_si_encode (cfg : JvConfig) (hL : cfg.HeaderLayout) (hi si : Nat)
    (hhi : hi < 0x7F) (hsi : si < 0x100) : rfc_si cfg (rfc_encode cfg hi si) = si := by
  rw [rfc_encode_val cfg hL hi si hhi hsi]
  obtain ⟨_, _, hS⟩ := hL
  unfold rfc_si
  rw [hS, second_byte]
  omega

theorem defaultConfig_layout : defaultConfig.HeaderLayout :=
  ⟨rfl, rfl, fun _ => rfl⟩

/-- Session 2, sub-session 1 has the handle `0x183` in the sample configuration. -/
theorem rfc_encode_sample : rfc_encode defaultConfig 2 1 = 0x183 := by decide

/-- The handle `0x183` is valid in the sample state, the handle 3 (session 2,
sub-session 0) is not. -/
theorem sample_handle_valid :
    spec_rfc_handle_valid defaultConfig sampleState 0x183 ∧
      ¬ spec_rfc_handle_valid defaultConfig sampleState 3 := by
  decide

/-- Channel 3 is registered in the sample state, channel 4 is not. -/
theorem sample_channel_registered :
    spec_l2c_handle_registered defaultConfig sampleState 3 ∧
      ¬ spec_l2c_handle_registered defaultConfig sampleState 4 := by
  decide

/-! ## The handle codec -/

/-- C1. Round trip of the RFCOMM handle codec: under the header layout, with
pools that fit the handle fields, decoding the encoded handle of a valid pair
`(hi, si)` with the decode of `BTA_JvRfcommClose`, `BTA_JvRfcommWrite` and
`BTA_JvRfcommGetPortHdl` gives back exactly `(hi, si)`. -/
theorem rfc_decode_encode_roundtrip (cfg : JvConfig) (hL : cfg.HeaderLayout)
    (hconn : cfg.BTA_JV_MAX_RFC_CONN ≤ 0x7F) (hsess : cfg.BTA_JV_MAX_RFC_SR_SESSION ≤ 0x100)
    (hi si : Nat) (hhi : hi < cfg.BTA_JV_MAX_RFC_CONN)
    (hsi : si < cfg.BTA_JV_MAX_RFC_SR_SESSION) :
    (rfc_hi cfg (rfc_encode cfg hi si), rfc_si cfg (rfc_encode cfg hi si)) = (hi, si) := by
  rw [rfc_hi_encode cfg hL hi si (by omega) (by omega),
    rfc_si_encode cfg hL hi si (by omega) (by omega)]

theorem rfc_decode_encode_roundtrip_witness :
    defaultConfig.HeaderLayout ∧ defaultConfig.BTA_JV_MAX_RFC_CONN ≤ 0x7F ∧
      defaultConfig.BTA_JV_MAX_RFC_SR_SESSION ≤ 0x100 ∧
      29 < defaultConfig.BTA_JV_MAX_RFC_CONN ∧ 6 < defaultConfig.BTA_JV_MAX_RFC_SR_SESSION ∧
      (rfc_hi defaultConfig (rfc_encode defaultConfig 29 6),
        rfc_si defaultConfig (rfc_encode defaultConfig 29 6)) = (29, 6) :=
  ⟨defaultConfig_layout, by decide, by decide, by decide, by decide,
    rfc_decode_encode_roundtrip defaultConfig defaultConfig_layout (by decide) (by decide) 29 6
      (by decide) (by decide)⟩

/-- C2. The RFCOMM handle encoding is injective on valid pairs: under the header
layout, with pools that fit the handle fields, two valid pairs that encode to
the same 32-bit handle are the same pair. -/
theorem rfc_encode_injective (cfg : JvConfig) (hL : cfg.HeaderLayout)
    (hconn : cfg.BTA_JV_MAX_RFC_CONN ≤ 0x7F) (hsess : cfg.BTA_JV_MAX_RFC_SR_SESSION ≤ 0x100)
    (hi1 si1 hi2 si2 : Nat)
    (hhi1 : hi1 < cfg.BTA_JV_MAX_RFC_CONN) (hsi1 : si1 < cfg.BTA_JV_MAX_RFC_SR_SESSION)
    (hhi2 : hi2 < cfg.BTA_JV_MAX_RFC_CONN) (hsi2 : si2 < cfg.BTA_JV_MAX_RFC_SR_SESSION)
    (heq : rfc_encode cfg hi1 si1 = rfc_encode cfg hi2 si2) : hi1 = hi2 ∧ si1 = si2 := by
  have a1 := rfc_hi_encode cfg hL hi1 si1 (by omega) (by omega)
  have a2 := rfc_hi_encode cfg hL hi2 si2 (by omega) (by omega)
  have b1 := rfc_si_encode cfg hL hi1 si1 (by omega) (by omega)
  have b2 := rfc_si_encode cfg hL hi2 si2 (by omega) (by omega)
  rw [heq] at a1 b1
  exact ⟨a1.symm.trans a2, b1.symm.trans b2⟩

theorem rfc_encode_injective_witness :
    defaultConfig.HeaderLayout ∧ defaultConfig.BTA_JV_MAX_RFC_CONN ≤ 0x7F ∧
      defaultConfig.BTA_JV_MAX_RFC_SR_SESSION ≤ 0x100 ∧
      3 < defaultConfig.BTA_JV_MAX_RFC_CONN ∧ 2 < defaultConfig.BTA_JV_MAX_RFC_SR_SESSION ∧
      rfc_encode defaultConfig 3 2 = rfc_encode defaultConfig 3 2 ∧ (3 = 3 ∧ 2 = 2) :=
  ⟨defaultConfig_layout, by decide, by decide, by decide, by decide, rfl,
    rfc_encode_injective defaultConfig defaultConfig_layout (by decide) (by decide) 3 2 3 2
      (by decide) (by decide) (by decide) (by decide) rfl⟩

/-! ## Validation of RFCOMM handles -/

theorem close_valid (cfg : JvConfig) (st : JvState) (handle rfcomm_slot_id : Nat)
    (h : spec_rfc_handle_valid cfg st handle) :
    BTA_JvRfcommClose cfg st handle rfcomm_slot_id =
      some (BTA_JV_SUCCESS,
        { st with
          queue := st.queue ++
            [.BTA_JV_API_RFCOMM_CLOSE_EVT handle (rfc_hi cfg handle)
              ((st.bta_jv_cb.rfc_cb (rfc_hi cfg handle)).rfc_hdl (rfc_si cfg handle) - 1)
              rfcomm_slot_id] }) := by
  obtain ⟨h1, h2, h3, h4⟩ := h
  have h2b : (st.bta_jv_cb.rfc_cb (rfc_hi cfg handle)).p_cback.isSome = true :=
    Option.isSome_iff_ne_none.mpr h2
  simp [BTA_JvRfcommClose, rfc_cb_at, rfc_hdl_at, bta_sys_sendmsg, h1, h2b, h3, h4]

theorem close_invalid (cfg : JvConfig) (st : JvState) (handle rfcomm_slot_id : Nat)
    (h : ¬ spec_rfc_handle_valid cfg st handle) :
    BTA_JvRfcommClose cfg st handle rfcomm_slot_id = some (BTA_JV_FAILURE, st) := by
  unfold spec_rfc_handle_valid at h
  unfold BTA_JvRfcommClose rfc_cb_at rfc_hdl_at
  by_cases h1 : rfc_hi cfg handle < cfg.BTA_JV_MAX_RFC_CONN
  · by_cases h2 : (st.bta_jv_cb.rfc_cb (rfc_hi cfg handle)).p_cback = none
    · simp [h1, h2]
    · by_cases h3 : rfc_si cfg handle < cfg.BTA_JV_MAX_RFC_SR_SESSION
      · have h4 : (st.bta_jv_cb.rfc_cb (rfc_hi cfg handle)).rfc_hdl (rfc_si cfg handle) = 0 := by
          by_contra h4
          exact h ⟨h1, h2, h3, h4⟩
        simp [h1, h3, h4]
      · simp [h1, h3]
  · simp [h1]

theorem write_valid (cfg : JvConfig) (st : JvState) (handle req_id : Nat)
    (h : spec_rfc_handle_valid cfg st handle) :
    BTA_JvRfcommWrite cfg st handle req_id =
      some (BTA_JV_SUCCESS,
        { st with
          queue := st.queue ++
            [.BTA_JV_API_RFCOMM_WRITE_EVT handle req_id (rfc_hi cfg handle)
              ((st.bta_jv_cb.rfc_cb (rfc_hi cfg handle)).rfc_hdl (rfc_si cfg handle) - 1)] }) := by
  obtain ⟨h1, h2, h3, h4⟩ := h
  have h2b : (st.bta_jv_cb.rfc_cb (rfc_hi cfg handle)).p_cback.isSome = true :=
    Option.isSome_iff_ne_none.mpr h2
  simp [BTA_JvRfcommWrite, rfc_cb_at, rfc_hdl_at, bta_sys_sendmsg, h1, h2b, h3, h4]

theorem write_invalid (cfg : JvConfig) (st : JvState) (handle req_id : Nat)
    (h : ¬ spec_rfc_handle_valid cfg st handle) :
    BTA_JvRfcommWrite cfg st handle req_id = some (BTA_JV_FAILURE, st) := by
  unfold spec_rfc_handle_valid at h
  unfold BTA_JvRfcommWrite rfc_cb_at rfc_hdl_at
  by_cases h1 : rfc_hi cfg handle < cfg.BTA_JV_MAX_RFC_CONN
  · by_cases h2 : (st.bta_jv_cb.rfc_cb (rfc_hi cfg handle)).p_cback = none
    · simp [h1, h2]
    · by_cases h3 : rfc_si cfg handle < cfg.BTA_JV_MAX_RFC_SR_SESSION
      · have h4 : (st.bta_jv_cb.rfc_cb (rfc_hi cfg handle)).rfc_hdl (rfc_si cfg handle) = 0 := by
          by_contra h4
          exact h ⟨h1, h2, h3, h4⟩
        simp [h1, h3, h4]
      · simp [h1, h3]
  · simp [h1]

/-- The port-handle query answers `0xffff` unless both indices are in range and
the sub-session slot holds a port reference. -/
theorem get_port_hdl_unassigned (cfg : JvConfig) (st : JvState) (handle : Nat)
    (h : ¬ (rfc_hi cfg handle < cfg.BTA_JV_MAX_RFC_CONN ∧
      rfc_si cfg handle < cfg.BTA_JV_MAX_RFC_SR_SESSION ∧
      (st.bta_jv_cb.rfc_cb (rfc_hi cfg handle)).rfc_hdl (rfc_si cfg handle) ≠ 0)) :
    BTA_JvRfcommGetPortHdl cfg st handle = some 0xffff := by
  unfold BTA_JvRfcommGetPortHdl rfc_cb_at rfc_hdl_at
  by_cases h1 : rfc_hi cfg handle < cfg.BTA_JV_MAX_RFC_CONN
  · by_cases h3 : rfc_si cfg handle < cfg.BTA_JV_MAX_RFC_SR_SESSION
    · have h4 : (st.bta_jv_cb.rfc_cb (rfc_hi cfg handle)).rfc_hdl (rfc_si cfg handle) = 0 := by
        by_contra h4
        exact h ⟨h1, h3, h4⟩
      simp [h1, h3, h4]
    · simp [h1, h3]
  · simp [h1]

theorem rfc_hi_of_zero_field (cfg : JvConfig) (handle : Nat)
    (h : (handle &&& cfg.BTA_JV_RFC_HDL_MASK) &&& not32 cfg.BTA_JV_RFCOMM_MASK = 0) :
    rfc_hi cfg handle = 0xFFFFFFFF := by
  unfold rfc_hi
  rw [h]
  decide

/-- C3. Zero and out-of-range RFCOMM handles are rejected without an
out-of-bounds read: in every state, a handle whose session field is zero (the
decoded `hi` is then `0xFFFFFFFF`), whose `hi` is not below
`BTA_JV_MAX_RFC_CONN` or whose `si` is not below `BTA_JV_MAX_RFC_SR_SESSION`
makes `BTA_JvRfcommClose` and `BTA_JvRfcommWrite` return `BTA_JV_FAILURE` with
the state untouched and `BTA_JvRfcommGetPortHdl` return `0xffff`; each call
completes (a result other than `none`), so no array is read past its end. -/
theorem rfc_invalid_handle_rejected (cfg : JvConfig)
    (hcap : cfg.BTA_JV_MAX_RFC_CONN ≤ 0xFFFFFFFF) (st : JvState)
    (handle rfcomm_slot_id req_id : Nat)
    (hbad : (handle &&& cfg.BTA_JV_RFC_HDL_MASK) &&& not32 cfg.BTA_JV_RFCOMM_MASK = 0 ∨
      cfg.BTA_JV_MAX_RFC_CONN ≤ rfc_hi cfg handle ∨
      cfg.BTA_JV_MAX_RFC_SR_SESSION ≤ rfc_si cfg handle) :
    ((handle &&& cfg.BTA_JV_RFC_HDL_MASK) &&& not32 cfg.BTA_JV_RFCOMM_MASK = 0 →
        rfc_hi cfg handle = 0xFFFFFFFF) ∧
      BTA_JvRfcommClose cfg st handle rfcomm_slot_id = some (BTA_JV_FAILURE, st) ∧
      BTA_JvRfcommWrite cfg st handle req_id = some (BTA_JV_FAILURE, st) ∧
      BTA_JvRfcommGetPortHdl cfg st handle = some 0xffff := by
  have hout : ¬ rfc_hi cfg handle < cfg.BTA_JV_MAX_RFC_CONN ∨
      ¬ rfc_si cfg handle < cfg.BTA_JV_MAX_RFC_SR_SESSION := by
    rcases hbad with h0 | h1 | h2
    · left
      rw [rfc_hi_of_zero_field cfg handle h0]
      omega
    · left; omega
    · right; omega
  have hinv : ¬ spec_rfc_handle_valid cfg st handle := by
    rintro ⟨h1, _, h3, _⟩
    rcases hout with h | h
    · exact h h1
    · exact h h3
  refine ⟨rfc_hi_of_zero_field cfg handle, close_invalid cfg st handle rfcomm_slot_id hinv,
    write_invalid cfg st handle req_id hinv, get_port_hdl_unassigned cfg st handle ?_⟩
  rintro ⟨h1, h3, _⟩
  rcases hout with h | h
  · exact h h1
  · exact h h3

theorem rfc_invalid_handle_rejected_witness :
    defaultConfig.BTA_JV_MAX_RFC_CONN ≤ 0xFFFFFFFF ∧
      (0 &&& defaultConfig.BTA_JV_RFC_HDL_MASK) &&& not32 defaultConfig.BTA_JV_RFCOMM_MASK = 0 ∧
      rfc_hi defaultConfig 0 = 0xFFFFFFFF ∧
      BTA_JvRfcommClose defaultConfig sampleState 0 5 = some (BTA_JV_FAILURE, sampleState) ∧
      BTA_JvRfcommWrite defaultConfig sampleState 0 9 = some (BTA_JV_FAILURE, sampleState) ∧
      BTA_JvRfcommGetPortHdl defaultConfig sampleState 0 = some 0xffff :=
  have h := rfc_invalid_handle_rejected defaultConfig (by decide) sampleState 0 5 9
    (Or.inl (by decide))
  ⟨by decide, by decide, h.1 (by decide), h.2⟩

/-! ## Starting an RFCOMM server -/

/-- C4. `BTA_JvRfcommStartServer` clamps `max_session` into
`[1, BTA_JV_MAX_RFC_SR_SESSION]` before queuing: with a non-null callback and
an 8-bit `m`, the call returns `BTA_JV_SUCCESS` and queues one start-server
request whose `max_session` is 1 for `m = 0`, the ceiling for `m` above the
ceiling and `m` otherwise; that value lies in the interval; `m = 0` gives 1 and
`m = ceiling + 5` gives exactly the ceiling. -/
theorem rfcomm_start_server_clamps (cfg : JvConfig)
    (hcap : 1 ≤ cfg.BTA_JV_MAX_RFC_SR_SESSION) (st : JvState)
    (sec_mask role local_scn m c rfcomm_slot_id : Nat) (hm : m < 2 ^ 8) :
    BTA_JvRfcommStartServer cfg st sec_mask role local_scn m (some c) rfcomm_slot_id =
        (BTA_JV_SUCCESS,
          { st with
            queue := st.queue ++
              [.BTA_JV_API_RFCOMM_START_SERVER_EVT sec_mask role local_scn
                (spec_clamp_max_session cfg m) (some c) rfcomm_slot_id] }) ∧
      (1 ≤ spec_clamp_max_session cfg m ∧
        spec_clamp_max_session cfg m ≤ cfg.BTA_JV_MAX_RFC_SR_SESSION) ∧
      BTA_JvRfcommStartServer cfg st sec_mask role local_scn 0 (some c) rfcomm_slot_id =
        (BTA_JV_SUCCESS,
          { st with
            queue := st.queue ++
              [.BTA_JV_API_RFCOMM_START_SERVER_EVT sec_mask role local_scn 1 (some c)
                rfcomm_slot_id] }) ∧
      (cfg.BTA_JV_MAX_RFC_SR_SESSION + 5 < 2 ^ 8 →
        BTA_JvRfcommStartServer cfg st sec_mask role local_scn
            (cfg.BTA_JV_MAX_RFC_SR_SESSION + 5) (some c) rfcomm_slot_id =
          (BTA_JV_SUCCESS,
            { st with
              queue := st.queue ++
                [.BTA_JV_API_RFCOMM_START_SERVER_EVT sec_mask role local_scn
                  cfg.BTA_JV_MAX_RFC_SR_SESSION (some c) rfcomm_slot_id] })) := by
  have key : ∀ k : Nat, k < 2 ^ 8 →
      BTA_JvRfcommStartServer cfg st sec_mask role local_scn k (some c) rfcomm_slot_id =
        (BTA_JV_SUCCESS,
          { st with
            queue := st.queue ++
              [.BTA_JV_API_RFCOMM_START_SERVER_EVT sec_mask role local_scn
                (spec_clamp_max_session cfg k) (some c) rfcomm_slot_id] }) := by
    intro k hk
    have hval : (if (if k = 0 then 1 else k) > cfg.BTA_JV_MAX_RFC_SR_SESSION then
          cfg.BTA_JV_MAX_RFC_SR_SESSION % 2 ^ 8 else (if k = 0 then 1 else k)) =
        spec_clamp_max_session cfg k := by
      unfold spec_clamp_max_session
      split_ifs <;> omega
    simp only [BTA_JvRfcommStartServer, bta_sys_sendmsg, reduceCtorEq, if_false, hval]
  have h0 : spec_clamp_max_session cfg 0 = 1 := by simp [spec_clamp_max_session]
  have h5 : spec_clamp_max_session cfg (cfg.BTA_JV_MAX_RFC_SR_SESSION + 5) =
      cfg.BTA_JV_MAX_RFC_SR_SESSION := by
    simp [spec_clamp_max_session]
  refine ⟨key m hm, ?_, ?_, ?_⟩
  · unfold spec_clamp_max_session
    split_ifs <;> omega
  · have := key 0 (by decide)
    rwa [h0] at this
  · intro hfit
    have := key _ hfit
    rwa [h5] at this

theorem rfcomm_start_server_clamps_witness :
    1 ≤ defaultConfig.BTA_JV_MAX_RFC_SR_SESSION ∧ 12 < 2 ^ 8 ∧
      BTA_JvRfcommStartServer defaultConfig emptyState 0 0 4 12 (some 1) 77 =
        (BTA_JV_SUCCESS,
          { emptyState with
            queue := emptyState.queue ++
              [.BTA_JV_API_RFCOMM_START_SERVER_EVT 0 0 4
                (spec_clamp_max_session defaultConfig 12) (some 1) 77] }) ∧
      spec_clamp_max_session defaultConfig 12 = 7 :=
  ⟨by decide, by decide,
    (rfcomm_start_server_clamps defaultConfig (by decide) emptyState 0 0 4 12 1 77
      (by decide)).1, by decide⟩

/-! ## Closing and writing on an RFCOMM handle -/

/-- C5. `BTA_JvRfcommClose` validity: in every state and for every handle the
call returns `BTA_JV_SUCCESS` exactly when the decoded `hi` is in range,
`rfc_cb[hi]` has a callback, the decoded `si` is in range and
`rfc_cb[hi].rfc_hdl[si]` is non-zero; then exactly one close request is
appended, referring to `rfc_cb[hi]` and `port_cb[rfc_hdl[si] - 1]`, and nothing
else changes; otherwise it returns `BTA_JV_FAILURE` and leaves the state (queue,
callbacks run, control blocks) as it was. -/
theorem rfcomm_close_validity (cfg : JvConfig) (st : JvState) (handle rfcomm_slot_id : Nat) :
    ((BTA_JvRfcommClose cfg st handle rfcomm_slot_id).map Prod.fst = some BTA_JV_SUCCESS ↔
        spec_rfc_handle_valid cfg st handle) ∧
      (spec_rfc_handle_valid cfg st handle →
        BTA_JvRfcommClose cfg st handle rfcomm_slot_id =
          some (BTA_JV_SUCCESS,
            { st with
              queue := st.queue ++
                [.BTA_JV_API_RFCOMM_CLOSE_EVT handle (rfc_hi cfg handle)
                  ((st.bta_jv_cb.rfc_cb (rfc_hi cfg handle)).rfc_hdl (rfc_si cfg handle) - 1)
                  rfcomm_slot_id] })) ∧
      (¬ spec_rfc_handle_valid cfg st handle →
        BTA_JvRfcommClose cfg st handle rfcomm_slot_id = some (BTA_JV_FAILURE, st)) := by
  refine ⟨?_, close_valid cfg st handle rfcomm_slot_id,
    close_invalid cfg st handle rfcomm_slot_id⟩
  by_cases hv : spec_rfc_handle_valid cfg st handle
  · simp [close_valid cfg st handle rfcomm_slot_id hv, hv]
  · simp [close_invalid cfg st handle rfcomm_slot_id hv, hv]

/-- C6. `BTA_JvRfcommWrite` has the validity precondition of
`BTA_JvRfcommClose`: in every state and for every handle it returns
`BTA_JV_SUCCESS` exactly when the close would; when the handle is valid one
write request is appended; when validation fails, and in particular when the
decoded session block has no callback, it returns `BTA_JV_FAILURE` and leaves
the state (queue and callbacks run included) as it was. -/
theorem rfcomm_write_validity (cfg : JvConfig) (st : JvState)
    (handle req_id rfcomm_slot_id : Nat) :
    ((BTA_JvRfcommWrite cfg st handle req_id).map Prod.fst = some BTA_JV_SUCCESS ↔
        (BTA_JvRfcommClose cfg st handle rfcomm_slot_id).map Prod.fst = some BTA_JV_SUCCESS) ∧
      (spec_rfc_handle_valid cfg st handle →
        BTA_JvRfcommWrite cfg st handle req_id =
          some (BTA_JV_SUCCESS,
            { st with
              queue := st.queue ++
                [.BTA_JV_API_RFCOMM_WRITE_EVT handle req_id (rfc_hi cfg handle)
                  ((st.bta_jv_cb.rfc_cb (rfc_hi cfg handle)).rfc_hdl (rfc_si cfg handle) - 1)] })) ∧
      (¬ spec_rfc_handle_valid cfg st handle →
        BTA_JvRfcommWrite cfg st handle req_id = some (BTA_JV_FAILURE, st)) ∧
      ((st.bta_jv_cb.rfc_cb (rfc_hi cfg handle)).p_cback = none →
        BTA_JvRfcommWrite cfg st handle req_id = some (BTA_JV_FAILURE, st)) := by
  refine ⟨?_, write_valid cfg st handle req_id, write_invalid cfg st handle req_id, ?_⟩
  · by_cases hv : spec_rfc_handle_valid cfg st handle
    · simp [write_valid cfg st handle req_id hv, close_valid cfg st handle rfcomm_slot_id hv]
    · simp [write_invalid cfg st handle req_id hv, close_invalid cfg st handle rfcomm_slot_id hv]
  · intro hnone
    exact write_invalid cfg st handle req_id (fun hv => hv.2.1 hnone)

/-! ## Closing an L2CAP handle -/

theorem l2cap_close_registered (cfg : JvConfig) (st : JvState) (handle : Nat)
    (h : spec_l2c_handle_registered cfg st handle) :
    BTA_JvL2capClose cfg st handle =
      some (BTA_JV_SUCCESS,
        { st with queue := st.queue ++ [.bta_jv_l2cap_close handle handle] }) := by
  obtain ⟨h1, h2⟩ := h
  have h1b : ¬ handle ≥ cfg.BTA_JV_MAX_L2C_CONN := by omega
  simp [BTA_JvL2capClose, l2c_cb_at, do_in_bta_thread, h1, h1b, h2]

theorem l2cap_close_unregistered (cfg : JvConfig) (st : JvState) (handle : Nat)
    (h : ¬ spec_l2c_handle_registered cfg st handle) :
    BTA_JvL2capClose cfg st handle = some (BTA_JV_FAILURE, st) := by
  unfold spec_l2c_handle_registered at h
  unfold BTA_JvL2capClose l2c_cb_at
  by_cases h1 : handle < cfg.BTA_JV_MAX_L2C_CONN
  · have h1b : ¬ handle ≥ cfg.BTA_JV_MAX_L2C_CONN := by omega
    have h2 : (st.bta_jv_cb.l2c_cb handle).p_cback = none := by
      by_contra h2
      exact h ⟨h1, h2⟩
    simp [h1, h1b, h2]
  · have h1b : handle ≥ cfg.BTA_JV_MAX_L2C_CONN := by omega
    simp [h1b]

/-- After the worker has run the close handler on block `handle`, the block has
no callback. -/
theorem worker_close_clears (cfg : JvConfig) (st : JvState) (handle : Nat) :
    ¬ spec_l2c_handle_registered cfg (bta_jv_l2cap_close st handle handle) handle := by
  rintro ⟨_, h2⟩
  simp [bta_jv_l2cap_close] at h2

/-- C7. PSM-based L2CAP close is not idempotent: `BTA_JvL2capClose(handle)`
returns `BTA_JV_SUCCESS` exactly when `handle < BTA_JV_MAX_L2C_CONN` and
`l2c_cb[handle]` has a callback, and then appends exactly one close request for
that block; otherwise it returns `BTA_JV_FAILURE` and changes nothing.  So
closing an open handle, letting the worker run the queued close (which clears
the callback), and closing again gives SUCCESS, then FAILURE with nothing
queued by the second call. -/
theorem l2cap_close_not_idempotent (cfg : JvConfig) (st : JvState) (handle : Nat) :
    ((BTA_JvL2capClose cfg st handle).map Prod.fst = some BTA_JV_SUCCESS ↔
        spec_l2c_handle_registered cfg st handle) ∧
      (spec_l2c_handle_registered cfg st handle →
        BTA_JvL2capClose cfg st handle =
          some (BTA_JV_SUCCESS,
            { st with queue := st.queue ++ [.bta_jv_l2cap_close handle handle] })) ∧
      (¬ spec_l2c_handle_registered cfg st handle →
        BTA_JvL2capClose cfg st handle = some (BTA_JV_FAILURE, st)) ∧
      (spec_l2c_handle_registered cfg st handle →
        ∃ st1 : JvState,
          BTA_JvL2capClose cfg st handle = some (BTA_JV_SUCCESS, st1) ∧
          BTA_JvL2capClose cfg (bta_jv_l2cap_close st1 handle handle) handle =
            some (BTA_JV_FAILURE, bta_jv_l2cap_close st1 handle handle)) := by
  refine ⟨?_, l2cap_close_registered cfg st handle, l2cap_close_unregistered cfg st handle, ?_⟩
  · by_cases hv : spec_l2c_handle_registered cfg st handle
    · simp [l2cap_close_registered cfg st handle hv, hv]
    · simp [l2cap_close_unregistered cfg st handle hv, hv]
  · intro hv
    exact ⟨_, l2cap_close_registered cfg st handle hv,
      l2cap_close_unregistered cfg _ handle (worker_close_clears cfg _ handle)⟩

/-- C8. Fixed-channel L2CAP close is unconditionally accepted and silent: in
every state and for every handle `BTA_JvL2capCloseLE` returns `BTA_JV_SUCCESS`,
appends exactly one fixed-channel close request carrying the handle and runs no
callback; a second close of the same handle again returns `BTA_JV_SUCCESS`,
appends one more such request and runs no callback. -/
theorem l2cap_close_le_unconditional (st : JvState) (handle : Nat) :
    BTA_JvL2capCloseLE st handle =
        (BTA_JV_SUCCESS,
          { st with queue := st.queue ++ [.BTA_JV_API_L2CAP_CLOSE_FIXED_EVT handle] }) ∧
      (BTA_JvL2capCloseLE st handle).2.cbacks = st.cbacks ∧
      BTA_JvL2capCloseLE (BTA_JvL2capCloseLE st handle).2 handle =
        (BTA_JV_SUCCESS,
          { st with
            queue := st.queue ++
              [.BTA_JV_API_L2CAP_CLOSE_FIXED_EVT handle,
                .BTA_JV_API_L2CAP_CLOSE_FIXED_EVT handle] }) ∧
      (BTA_JvL2capCloseLE (BTA_JvL2capCloseLE st handle).2 handle).2.cbacks = st.cbacks := by
  simp [BTA_JvL2capCloseLE, bta_sys_sendmsg]

/-! ## Requests that need a callback -/

/-- C9. Connect and listen require a callback: each of `BTA_JvL2capConnect`,
`BTA_JvL2capConnectLE`, `BTA_JvL2capStartServer`, `BTA_JvL2capStartServerLE`,
`BTA_JvRfcommConnect` and `BTA_JvRfcommStartServer` returns `BTA_JV_FAILURE`
exactly when its callback argument is null, whatever the other arguments; with
a null callback the state is untouched (nothing queued), and with a callback
the queue grows by exactly one request, which carries that callback and the
caller's socket or slot id unchanged. -/
theorem connect_listen_require_callback (cfg : JvConfig) (st : JvState) (conn_type : Int)
    (sec_mask role chan rx_mtu peer_bd_addr scn max_session id : Nat)
    (ertm_info l2cfg : Option Nat) (p_cback : Option Nat) :
    (((BTA_JvL2capConnect st conn_type sec_mask role ertm_info chan rx_mtu l2cfg peer_bd_addr
            p_cback id).1 = BTA_JV_FAILURE ↔ p_cback = none) ∧
        (p_cback = none →
          BTA_JvL2capConnect st conn_type sec_mask role ertm_info chan rx_mtu l2cfg peer_bd_addr
            p_cback id = (BTA_JV_FAILURE, st)) ∧
        (∀ c, p_cback = some c →
          ∃ r, BTA_JvL2capConnect st conn_type sec_mask role ertm_info chan rx_mtu l2cfg
              peer_bd_addr p_cback id = (BTA_JV_SUCCESS, { st with queue := st.queue ++ [r] }) ∧
            r = .bta_jv_l2cap_connect conn_type sec_mask role chan rx_mtu peer_bd_addr l2cfg
              ertm_info (some c) id)) ∧
      (((BTA_JvL2capConnectLE st sec_mask chan peer_bd_addr p_cback id).1 = BTA_JV_FAILURE ↔
            p_cback = none) ∧
        (p_cback = none →
          BTA_JvL2capConnectLE st sec_mask chan peer_bd_addr p_cback id = (BTA_JV_FAILURE, st)) ∧
        (∀ c, p_cback = some c →
          ∃ r, BTA_JvL2capConnectLE st sec_mask chan peer_bd_addr p_cback id =
              (BTA_JV_SUCCESS, { st with queue := st.queue ++ [r] }) ∧
            r = .bta_jv_l2cap_connect_le chan peer_bd_addr (some c) id)) ∧
      (((BTA_JvL2capStartServer st conn_type sec_mask role ertm_info chan rx_mtu l2cfg p_cback
            id).1 = BTA_JV_FAILURE ↔ p_cback = none) ∧
        (p_cback = none →
          BTA_JvL2capStartServer st conn_type sec_mask role ertm_info chan rx_mtu l2cfg p_cback
            id = (BTA_JV_FAILURE, st)) ∧
        (∀ c, p_cback = some c →
          ∃ r, BTA_JvL2capStartServer st conn_type sec_mask role ertm_info chan rx_mtu l2cfg
              p_cback id = (BTA_JV_SUCCESS, { st with queue := st.queue ++ [r] }) ∧
            r = .BTA_JV_API_L2CAP_START_SERVER_EVT conn_type sec_mask role chan rx_mtu l2cfg
              ertm_info (some c) id)) ∧
      (((BTA_JvL2capStartServerLE st sec_mask role ertm_info chan rx_mtu l2cfg p_cback id).1 =
            BTA_JV_FAILURE ↔ p_cback = none) ∧
        (p_cback = none →
          BTA_JvL2capStartServerLE st sec_mask role ertm_info chan rx_mtu l2cfg p_cback id =
            (BTA_JV_FAILURE, st)) ∧
        (∀ c, p_cback = some c →
          ∃ r, BTA_JvL2capStartServerLE st sec_mask role ertm_info chan rx_mtu l2cfg p_cback id =
              (BTA_JV_SUCCESS, { st with queue := st.queue ++ [r] }) ∧
            r = .BTA_JV_API_L2CAP_START_SERVER_LE_EVT sec_mask role chan rx_mtu l2cfg ertm_info
              (some c) id)) ∧
      (((BTA_JvRfcommConnect st sec_mask role scn peer_bd_addr p_cback id).1 = BTA_JV_FAILURE ↔
            p_cback = none) ∧
        (p_cback = none →
          BTA_JvRfcommConnect st sec_mask role scn peer_bd_addr p_cback id =
            (BTA_JV_FAILURE, st)) ∧
        (∀ c, p_cback = some c →
          ∃ r, BTA_JvRfcommConnect st sec_mask role scn peer_bd_addr p_cback id =
              (BTA_JV_SUCCESS, { st with queue := st.queue ++ [r] }) ∧
            r = .BTA_JV_API_RFCOMM_CONNECT_EVT sec_mask role scn peer_bd_addr (some c) id)) ∧
      (((BTA_JvRfcommStartServer cfg st sec_mask role scn max_session p_cback id).1 =
            BTA_JV_FAILURE ↔ p_cback = none) ∧
        (p_cback = none →
          BTA_JvRfcommStartServer cfg st sec_mask role scn max_session p_cback id =
            (BTA_JV_FAILURE, st)) ∧
        (∀ c, p_cback = some c →
          ∃ r n, BTA_JvRfcommStartServer cfg st sec_mask role scn max_session p_cback id =
              (BTA_JV_SUCCESS, { st with queue := st.queue ++ [r] }) ∧
            r = .BTA_JV_API_RFCOMM_START_SERVER_EVT sec_mask role scn n (some c) id)) := by
  cases p_cback with
  | none =>
    simp [BTA_JvL2capConnect, BTA_JvL2capConnectLE, BTA_JvL2capStartServer,
      BTA_JvL2capStartServerLE, BTA_JvRfcommConnect, BTA_JvRfcommStartServer]
  | some c0 =>
    refine ⟨?_, ?_, ?_, ?_, ?_, ?_⟩
    · cases l2cfg <;> cases ertm_info <;>
        simp [BTA_JvL2capConnect, do_in_bta_thread]
    · simp [BTA_JvL2capConnectLE, do_in_bta_thread]
    · simp [BTA_JvL2capStartServer, bta_sys_sendmsg]
    · simp [BTA_JvL2capStartServerLE, bta_sys_sendmsg]
    · simp [BTA_JvRfcommConnect, bta_sys_sendmsg]
    · simp [BTA_JvRfcommStartServer, bta_sys_sendmsg]

/-! ## Reserving a channel -/

/-- C10. `BTA_JvGetChannelId(conn_type, id, channel)` returns `BTA_JV_SUCCESS`
exactly when `conn_type` is one of `BTA_JV_CONN_TYPE_RFCOMM`,
`BTA_JV_CONN_TYPE_L2CAP`, `BTA_JV_CONN_TYPE_L2CAP_LE`; for any other type it
returns `BTA_JV_FAILURE` and leaves the state untouched; on success it appends
exactly one reservation request carrying the same connection type, the same
channel hint and the caller's id. -/
theorem get_channel_id_validity (cfg : JvConfig) (st : JvState) (conn_type : Int) (id : Nat)
    (channel : Int) :
    ((BTA_JvGetChannelId cfg st conn_type id channel).1 = BTA_JV_SUCCESS ↔
        (conn_type = cfg.BTA_JV_CONN_TYPE_RFCOMM ∨ conn_type = cfg.BTA_JV_CONN_TYPE_L2CAP ∨
          conn_type = cfg.BTA_JV_CONN_TYPE_L2CAP_LE)) ∧
      (¬ (conn_type = cfg.BTA_JV_CONN_TYPE_RFCOMM ∨ conn_type = cfg.BTA_JV_CONN_TYPE_L2CAP ∨
          conn_type = cfg.BTA_JV_CONN_TYPE_L2CAP_LE) →
        BTA_JvGetChannelId cfg st conn_type id channel = (BTA_JV_FAILURE, st)) ∧
      ((conn_type = cfg.BTA_JV_CONN_TYPE_RFCOMM ∨ conn_type = cfg.BTA_JV_CONN_TYPE_L2CAP ∨
          conn_type = cfg.BTA_JV_CONN_TYPE_L2CAP_LE) →
        BTA_JvGetChannelId cfg st conn_type id channel =
          (BTA_JV_SUCCESS,
            { st with
              queue := st.queue ++ [.bta_jv_get_channel_id conn_type channel id id] })) := by
  by_cases h : conn_type ≠ cfg.BTA_JV_CONN_TYPE_RFCOMM ∧
      conn_type ≠ cfg.BTA_JV_CONN_TYPE_L2CAP ∧ conn_type ≠ cfg.BTA_JV_CONN_TYPE_L2CAP_LE
  · have hn : ¬ (conn_type = cfg.BTA_JV_CONN_TYPE_RFCOMM ∨
        conn_type = cfg.BTA_JV_CONN_TYPE_L2CAP ∨ conn_type = cfg.BTA_JV_CONN_TYPE_L2CAP_LE) := by
      rintro (h1 | h1 | h1)
      · exact h.1 h1
      · exact h.2.1 h1
      · exact h.2.2 h1
    simp only [BTA_JvGetChannelId, if_pos h, hn, reduceCtorEq, false_iff, not_false_eq_true,
      true_and, forall_true_left, false_imp_iff, and_true, not_true_eq_false, imp_self]
  · have hp : conn_type = cfg.BTA_JV_CONN_TYPE_RFCOMM ∨
        conn_type = cfg.BTA_JV_CONN_TYPE_L2CAP ∨ conn_type = cfg.BTA_JV_CONN_TYPE_L2CAP_LE := by
      by_contra hp
      exact h ⟨fun e => hp (Or.inl e), fun e => hp (Or.inr (Or.inl e)),
        fun e => hp (Or.inr (Or.inr e))⟩
    simp only [BTA_JvGetChannelId, if_neg h, hp, do_in_bta_thread, true_iff, not_true_eq_false,
      false_imp_iff, true_and, forall_true_left]


/-! ## Reading and writing on an L2CAP handle -/

theorem l2cap_read_registered (cfg : JvConfig) (gap : GapApi) (st : JvState)
    (handle req_id p_data len c : Nat) (h1 : handle < cfg.BTA_JV_MAX_L2C_CONN)
    (h2 : (st.bta_jv_cb.l2c_cb handle).p_cback = some c) :
    BTA_JvL2capRead cfg gap st handle req_id p_data len =
      some (BTA_JV_SUCCESS,
        { st with
          cbacks := st.cbacks ++
            [.BTA_JV_L2CAP_READ_EVT c
              (if gap.BT_PASS = (gap.GAP_ConnReadData (handle % 2 ^ 16) p_data len).1 then
                BTA_JV_SUCCESS else BTA_JV_FAILURE)
              handle req_id p_data (gap.GAP_ConnReadData (handle % 2 ^ 16) p_data len).2
              (st.bta_jv_cb.l2c_cb handle).l2cap_socket_id] }) := by
  simp [BTA_JvL2capRead, l2c_cb_at, h1, h2]

theorem l2cap_read_unregistered (cfg : JvConfig) (gap : GapApi) (st : JvState)
    (handle req_id p_data len : Nat) (h : ¬ spec_l2c_handle_registered cfg st handle) :
    BTA_JvL2capRead cfg gap st handle req_id p_data len = some (BTA_JV_FAILURE, st) := by
  unfold spec_l2c_handle_registered at h
  unfold BTA_JvL2capRead l2c_cb_at
  by_cases h1 : handle < cfg.BTA_JV_MAX_L2C_CONN
  · have h2 : (st.bta_jv_cb.l2c_cb handle).p_cback = none := by
      by_contra h2
      exact h ⟨h1, h2⟩
    simp [h1, h2]
  · simp [h1]

theorem l2cap_ready_registered (cfg : JvConfig) (gap : GapApi) (st : JvState) (handle : Nat)
    (h : spec_l2c_handle_registered cfg st handle) :
    BTA_JvL2capReady cfg gap st handle true =
      some (if gap.BT_PASS = (gap.GAP_GetRxQueueCnt (handle % 2 ^ 16)).1 then BTA_JV_SUCCESS
          else BTA_JV_FAILURE,
        st, some (gap.GAP_GetRxQueueCnt (handle % 2 ^ 16)).2) := by
  obtain ⟨h1, h2⟩ := h
  have h2b : (st.bta_jv_cb.l2c_cb handle).p_cback.isSome = true :=
    Option.isSome_iff_ne_none.mpr h2
  by_cases hp : gap.BT_PASS = (gap.GAP_GetRxQueueCnt (handle % 65536)).1 <;>
    simp [BTA_JvL2capReady, l2c_cb_at, h1, h2b, hp]

theorem l2cap_ready_rejected (cfg : JvConfig) (gap : GapApi) (st : JvState) (handle : Nat)
    (p_data_size : Bool)
    (h : ¬ (p_data_size = true ∧ spec_l2c_handle_registered cfg st handle)) :
    BTA_JvL2capReady cfg gap st handle p_data_size = some (BTA_JV_FAILURE, st, none) := by
  unfold spec_l2c_handle_registered at h
  unfold BTA_JvL2capReady l2c_cb_at
  by_cases hp : p_data_size = true
  · by_cases h1 : handle < cfg.BTA_JV_MAX_L2C_CONN
    · have h2 : (st.bta_jv_cb.l2c_cb handle).p_cback = none := by
        by_contra h2
        exact h ⟨hp, h1, h2⟩
      simp [hp, h1, h2]
    · simp [hp, h1]
  · simp [hp]

theorem l2cap_write_registered (cfg : JvConfig) (st : JvState)
    (handle req_id p_data len user_id : Nat) (h : spec_l2c_handle_registered cfg st handle) :
    BTA_JvL2capWrite cfg st handle req_id p_data len user_id =
      some (BTA_JV_SUCCESS,
        { st with
          queue := st.queue ++
            [.BTA_JV_API_L2CAP_WRITE_EVT handle req_id p_data handle len user_id] }) := by
  obtain ⟨h1, h2⟩ := h
  have h2b : (st.bta_jv_cb.l2c_cb handle).p_cback.isSome = true :=
    Option.isSome_iff_ne_none.mpr h2
  simp [BTA_JvL2capWrite, l2c_cb_at, bta_sys_sendmsg, h1, h2b]

theorem l2cap_write_unregistered (cfg : JvConfig) (st : JvState)
    (handle req_id p_data len user_id : Nat) (h : ¬ spec_l2c_handle_registered cfg st handle) :
    BTA_JvL2capWrite cfg st handle req_id p_data len user_id = some (BTA_JV_FAILURE, st) := by
  unfold spec_l2c_handle_registered at h
  unfold BTA_JvL2capWrite l2c_cb_at
  by_cases h1 : handle < cfg.BTA_JV_MAX_L2C_CONN
  · have h2 : (st.bta_jv_cb.l2c_cb handle).p_cback = none := by
      by_contra h2
      exact h ⟨h1, h2⟩
    simp [h1, h2]
  · simp [h1]


/-! ## Every call at once -/

/-- From one computed result of a call to the facts about every result of it. -/
theorem shape_of (cfg : JvConfig) (gap : GapApi) (st : JvState) (call : ApiCall)
    (res0 : Option tBTA_JV_STATUS) (st0 : JvState)
    (hb : call.copyInBounds cfg)
    (he : apiStep cfg gap st call = some (res0, st0))
    (h1 : res0 = some BTA_JV_FAILURE → st0 = st)
    (h2 : acceptedForQueuing call res0 = true → ∃ q, st0.queue = st.queue ++ [q])
    (h3 : acceptedForQueuing call res0 = false → st0.queue = st.queue)
    (h4 : call.isL2capRead = false → st0.cbacks = st.cbacks)
    (h5 : st0.bta_jv_cb = st.bta_jv_cb ∨ st0.bta_jv_cb = enabledCb cfg) :
    ((∃ r, apiStep cfg gap st call = some r) ↔ call.copyInBounds cfg) ∧
      ∀ res st1, apiStep cfg gap st call = some (res, st1) →
        (res = some BTA_JV_FAILURE → st1 = st) ∧
        (acceptedForQueuing call res = true → ∃ q, st1.queue = st.queue ++ [q]) ∧
        (acceptedForQueuing call res = false → st1.queue = st.queue) ∧
        (call.isL2capRead = false → st1.cbacks = st.cbacks) ∧
        (st1.bta_jv_cb = st.bta_jv_cb ∨ st1.bta_jv_cb = enabledCb cfg) := by
  refine ⟨⟨fun _ => hb, fun _ => ⟨_, he⟩⟩, ?_⟩
  intro res st1 h
  rw [he] at h
  have h' := Option.some.inj h
  have hr : res0 = res := congrArg Prod.fst h'
  have hs : st0 = st1 := congrArg Prod.snd h'
  subst hr
  subst hs
  exact ⟨h1, h2, h3, h4, h5⟩

/-- A call that is rejected and hands back the state it was given. -/
theorem shape_reject (cfg : JvConfig) (gap : GapApi) (st : JvState) (call : ApiCall)
    (hb : call.copyInBounds cfg)
    (he : apiStep cfg gap st call = some (some BTA_JV_FAILURE, st)) :
    ((∃ r, apiStep cfg gap st call = some r) ↔ call.copyInBounds cfg) ∧
      ∀ res st1, apiStep cfg gap st call = some (res, st1) →
        (res = some BTA_JV_FAILURE → st1 = st) ∧
        (acceptedForQueuing call res = true → ∃ q, st1.queue = st.queue ++ [q]) ∧
        (acceptedForQueuing call res = false → st1.queue = st.queue) ∧
        (call.isL2capRead = false → st1.cbacks = st.cbacks) ∧
        (st1.bta_jv_cb = st.bta_jv_cb ∨ st1.bta_jv_cb = enabledCb cfg) :=
  shape_of cfg gap st call _ _ hb he (fun _ => rfl)
    (fun h => by simp [acceptedForQueuing] at h) (fun _ => rfl) (fun _ => rfl) (Or.inl rfl)

/-- A call that is accepted and posts one request. -/
theorem shape_append (cfg : JvConfig) (gap : GapApi) (st : JvState) (call : ApiCall)
    (res0 : Option tBTA_JV_STATUS) (st0 : JvState) (q : Request)
    (hb : call.copyInBounds cfg)
    (he : apiStep cfg gap st call = some (res0, st0))
    (hres : res0 ≠ some BTA_JV_FAILURE) (hsync : call.isSyncQuery = false)
    (hq : st0.queue = st.queue ++ [q]) (hc : st0.cbacks = st.cbacks)
    (h5 : st0.bta_jv_cb = st.bta_jv_cb ∨ st0.bta_jv_cb = enabledCb cfg) :
    ((∃ r, apiStep cfg gap st call = some r) ↔ call.copyInBounds cfg) ∧
      ∀ res st1, apiStep cfg gap st call = some (res, st1) →
        (res = some BTA_JV_FAILURE → st1 = st) ∧
        (acceptedForQueuing call res = true → ∃ q, st1.queue = st.queue ++ [q]) ∧
        (acceptedForQueuing call res = false → st1.queue = st.queue) ∧
        (call.isL2capRead = false → st1.cbacks = st.cbacks) ∧
        (st1.bta_jv_cb = st.bta_jv_cb ∨ st1.bta_jv_cb = enabledCb cfg) :=
  shape_of cfg gap st call _ _ hb he (fun h => absurd h hres) (fun _ => ⟨q, hq⟩)
    (fun h => by simp [acceptedForQueuing, hsync, hres] at h) (fun _ => hc) h5

/-- A transport query: whatever it returns, it posts nothing and leaves the
pools alone. -/
theorem shape_query (cfg : JvConfig) (gap : GapApi) (st : JvState) (call : ApiCall)
    (res0 : Option tBTA_JV_STATUS) (st0 : JvState)
    (hb : call.copyInBounds cfg)
    (he : apiStep cfg gap st call = some (res0, st0))
    (hsync : call.isSyncQuery = true)
    (h1 : res0 = some BTA_JV_FAILURE → st0 = st)
    (hq : st0.queue = st.queue) (h4 : call.isL2capRead = false → st0.cbacks = st.cbacks)
    (h5 : st0.bta_jv_cb = st.bta_jv_cb) :
    ((∃ r, apiStep cfg gap st call = some r) ↔ call.copyInBounds cfg) ∧
      ∀ res st1, apiStep cfg gap st call = some (res, st1) →
        (res = some BTA_JV_FAILURE → st1 = st) ∧
        (acceptedForQueuing call res = true → ∃ q, st1.queue = st.queue ++ [q]) ∧
        (acceptedForQueuing call res = false → st1.queue = st.queue) ∧
        (call.isL2capRead = false → st1.cbacks = st.cbacks) ∧
        (st1.bta_jv_cb = st.bta_jv_cb ∨ st1.bta_jv_cb = enabledCb cfg) :=
  shape_of cfg gap st call _ _ hb he h1
    (fun h => by simp [acceptedForQueuing, hsync] at h) (fun _ => hq) h4 (Or.inl h5)

/-- What any call does to the state.  It completes exactly when its copy stays
in bounds.  When it returns `BTA_JV_FAILURE` the state is as before.  When it
was accepted for queuing the queue is longer by exactly one request at its
tail, otherwise the queue is as before.  Only `BTA_JvL2capRead` can run a
callback.  The pools are as before, or freshly cleared by `BTA_JvEnable`. -/
theorem apiStep_shape (cfg : JvConfig) (gap : GapApi) (st : JvState) (call : ApiCall) :
    ((∃ r, apiStep cfg gap st call = some r) ↔ call.copyInBounds cfg) ∧
      ∀ res st1, apiStep cfg gap st call = some (res, st1) →
        (res = some BTA_JV_FAILURE → st1 = st) ∧
        (acceptedForQueuing call res = true → ∃ q, st1.queue = st.queue ++ [q]) ∧
        (acceptedForQueuing call res = false → st1.queue = st.queue) ∧
        (call.isL2capRead = false → st1.cbacks = st.cbacks) ∧
        (st1.bta_jv_cb = st.bta_jv_cb ∨ st1.bta_jv_cb = enabledCb cfg) := by
  cases call with
  | BTA_JvEnable p_cback =>
    cases p_cback with
    | none => exact shape_reject cfg gap st _ trivial rfl
    | some c =>
      by_cases hr : st.jv_registered = false
      · refine shape_append cfg gap st _ (some BTA_JV_SUCCESS)
          (do_in_bta_thread { st with bta_jv_cb := enabledCb cfg, jv_registered := true }
            (.bta_jv_enable (some c))) _ trivial ?_ (by simp) rfl rfl rfl (Or.inr rfl)
        simp [apiStep, BTA_JvEnable, hr]
      · refine shape_reject cfg gap st _ trivial ?_
        simp [apiStep, BTA_JvEnable, hr]
  | BTA_JvDisable =>
    exact shape_append cfg gap st _ none (BTA_JvDisable st) _ trivial rfl (by simp) rfl rfl rfl
      (Or.inl rfl)
  | BTA_JvGetChannelId conn_type id channel =>
    by_cases h : conn_type ≠ cfg.BTA_JV_CONN_TYPE_RFCOMM ∧
        conn_type ≠ cfg.BTA_JV_CONN_TYPE_L2CAP ∧ conn_type ≠ cfg.BTA_JV_CONN_TYPE_L2CAP_LE
    · refine shape_reject cfg gap st _ trivial ?_
      simp only [apiStep, BTA_JvGetChannelId, if_pos h]
    · refine shape_append cfg gap st _ (some BTA_JV_SUCCESS)
        (do_in_bta_thread st (.bta_jv_get_channel_id conn_type channel id id)) _ trivial ?_
        (by simp) rfl rfl rfl (Or.inl rfl)
      simp only [apiStep, BTA_JvGetChannelId, if_neg h]
  | BTA_JvFreeChannel channel conn_type =>
    exact shape_append cfg gap st _ _ _ _ trivial rfl (by simp [BTA_JvFreeChannel]) rfl rfl rfl (Or.inl rfl)
  | BTA_JvStartDiscovery bd_addr num_uuid p_uuid_list rfcomm_slot_id =>
    by_cases hb : num_uuid ≤ cfg.BTA_JV_MAX_UUIDS ∧ num_uuid ≤ p_uuid_list.length
    · refine shape_append cfg gap st _ (some BTA_JV_SUCCESS)
        (bta_sys_sendmsg st
          (.BTA_JV_API_START_DISCOVERY_EVT bd_addr num_uuid (p_uuid_list.take num_uuid) 0
            rfcomm_slot_id)) _ hb ?_ (by simp) rfl rfl rfl (Or.inl rfl)
      simp only [apiStep, BTA_JvStartDiscovery, if_pos hb, Option.map_some']
    · have hnone : apiStep cfg gap st
          (.BTA_JvStartDiscovery bd_addr num_uuid p_uuid_list rfcomm_slot_id) = none := by
        simp only [apiStep, BTA_JvStartDiscovery, if_neg hb, Option.map_none']
      refine ⟨⟨?_, fun h => absurd h hb⟩, ?_⟩
      · rintro ⟨r, hr⟩
        rw [hnone] at hr
        cases hr
      · intro res st1 h
        rw [hnone] at h
        cases h
  | BTA_JvCreateRecordByUser rfcomm_slot_id =>
    exact shape_append cfg gap st _ _ _ _ trivial rfl (by simp [BTA_JvCreateRecordByUser]) rfl rfl rfl (Or.inl rfl)
  | BTA_JvDeleteRecord handle =>
    exact shape_append cfg gap st _ _ _ _ trivial rfl (by simp [BTA_JvDeleteRecord]) rfl rfl rfl (Or.inl rfl)
  | BTA_JvL2capConnectLE sec_mask remote_chan peer_bd_addr p_cback l2cap_socket_id =>
    cases p_cback with
    | none => exact shape_reject cfg gap st _ trivial rfl
    | some c =>
      exact shape_append cfg gap st _ _ _ _ trivial rfl (by simp [BTA_JvL2capConnectLE]) rfl rfl rfl (Or.inl rfl)
  | BTA_JvL2capConnect conn_type sec_mask role ertm_info remote_psm rx_mtu l2cfg peer_bd_addr
      p_cback l2cap_socket_id =>
    cases p_cback with
    | none => exact shape_reject cfg gap st _ trivial rfl
    | some c =>
      exact shape_append cfg gap st _ _ _ _ trivial rfl (by simp [BTA_JvL2capConnect]) rfl rfl rfl (Or.inl rfl)
  | BTA_JvL2capClose handle =>
    by_cases hv : spec_l2c_handle_registered cfg st handle
    · refine shape_append cfg gap st _ (some BTA_JV_SUCCESS)
        (do_in_bta_thread st (.bta_jv_l2cap_close handle handle)) _ trivial ?_
        (by simp) rfl rfl rfl (Or.inl rfl)
      simp only [apiStep, l2cap_close_registered cfg st handle hv,
        Option.map_some', do_in_bta_thread, bta_sys_sendmsg]
    · refine shape_reject cfg gap st _ trivial ?_
      simp only [apiStep, l2cap_close_unregistered cfg st handle hv, Option.map_some']
  | BTA_JvL2capCloseLE handle =>
    exact shape_append cfg gap st _ _ _ _ trivial rfl (by simp [BTA_JvL2capCloseLE]) rfl rfl rfl (Or.inl rfl)
  | BTA_JvL2capStartServer conn_type sec_mask role ertm_info local_psm rx_mtu l2cfg p_cback
      l2cap_socket_id =>
    cases p_cback with
    | none => exact shape_reject cfg gap st _ trivial rfl
    | some c =>
      exact shape_append cfg gap st _ _ _ _ trivial rfl (by simp [BTA_JvL2capStartServer]) rfl rfl rfl (Or.inl rfl)
  | BTA_JvL2capStartServerLE sec_mask role ertm_info local_chan rx_mtu l2cfg p_cback
      l2cap_socket_id =>
    cases p_cback with
    | none => exact shape_reject cfg gap st _ trivial rfl
    | some c =>
      exact shape_append cfg gap st _ _ _ _ trivial rfl (by simp [BTA_JvL2capStartServerLE]) rfl rfl rfl (Or.inl rfl)
  | BTA_JvL2capStopServer local_psm l2cap_socket_id =>
    exact shape_append cfg gap st _ _ _ _ trivial rfl (by simp [BTA_JvL2capStopServer]) rfl rfl rfl (Or.inl rfl)
  | BTA_JvL2capStopServerLE local_chan l2cap_socket_id =>
    exact shape_append cfg gap st _ _ _ _ trivial rfl (by simp [BTA_JvL2capStopServerLE]) rfl rfl rfl (Or.inl rfl)
  | BTA_JvL2capRead handle req_id p_data len =>
    by_cases hv : spec_l2c_handle_registered cfg st handle
    · obtain ⟨h1, h2⟩ := hv
      obtain ⟨c, hc⟩ := Option.ne_none_iff_exists'.mp h2
      exact shape_query cfg gap st _ _ _ trivial
        (congrArg (Option.map fun r : tBTA_JV_STATUS × JvState => (some r.1, r.2))
          (l2cap_read_registered cfg gap st handle req_id p_data len c h1 hc))
        rfl (by simp) rfl (by simp [ApiCall.isL2capRead]) rfl
    · refine shape_reject cfg gap st _ trivial ?_
      simp only [apiStep, l2cap_read_unregistered cfg gap st handle req_id p_data len hv,
        Option.map_some']
  | BTA_JvL2capReady handle p_data_size =>
    by_cases hv : p_data_size = true ∧ spec_l2c_handle_registered cfg st handle
    · obtain ⟨hp, hreg⟩ := hv
      subst hp
      refine shape_query cfg gap st _
        (some (if gap.BT_PASS = (gap.GAP_GetRxQueueCnt (handle % 2 ^ 16)).1 then
          BTA_JV_SUCCESS else BTA_JV_FAILURE)) st trivial ?_ rfl (fun _ => rfl) rfl
        (fun _ => rfl) rfl
      simp only [apiStep, l2cap_ready_registered cfg gap st handle hreg, Option.map_some']
    · refine shape_reject cfg gap st _ trivial ?_
      simp only [apiStep, l2cap_ready_rejected cfg gap st handle p_data_size hv,
        Option.map_some']
  | BTA_JvL2capWrite handle req_id p_data len user_id =>
    by_cases hv : spec_l2c_handle_registered cfg st handle
    · refine shape_append cfg gap st _ (some BTA_JV_SUCCESS)
        (bta_sys_sendmsg st
          (.BTA_JV_API_L2CAP_WRITE_EVT handle req_id p_data handle len user_id)) _ trivial ?_
        (by simp) rfl rfl rfl (Or.inl rfl)
      simp only [apiStep, l2cap_write_registered cfg st handle req_id p_data len user_id hv,
        Option.map_some', do_in_bta_thread, bta_sys_sendmsg]
    · refine shape_reject cfg gap st _ trivial ?_
      simp only [apiStep, l2cap_write_unregistered cfg st handle req_id p_data len user_id hv, Option.map_some']
  | BTA_JvL2capWriteFixed channel addr req_id p_cback p_data len user_id =>
    exact shape_append cfg gap st _ _ _ _ trivial rfl (by simp [BTA_JvL2capWriteFixed]) rfl rfl rfl (Or.inl rfl)
  | BTA_JvRfcommConnect sec_mask role remote_scn peer_bd_addr p_cback rfcomm_slot_id =>
    cases p_cback with
    | none => exact shape_reject cfg gap st _ trivial rfl
    | some c =>
      exact shape_append cfg gap st _ _ _ _ trivial rfl (by simp [BTA_JvRfcommConnect]) rfl rfl rfl (Or.inl rfl)
  | BTA_JvRfcommClose handle rfcomm_slot_id =>
    by_cases hv : spec_rfc_handle_valid cfg st handle
    · refine shape_append cfg gap st _ (some BTA_JV_SUCCESS)
        (bta_sys_sendmsg st
          (.BTA_JV_API_RFCOMM_CLOSE_EVT handle (rfc_hi cfg handle)
            ((st.bta_jv_cb.rfc_cb (rfc_hi cfg handle)).rfc_hdl (rfc_si cfg handle) - 1)
            rfcomm_slot_id)) _ trivial ?_
        (by simp) rfl rfl rfl (Or.inl rfl)
      simp only [apiStep, close_valid cfg st handle rfcomm_slot_id hv,
        Option.map_some', do_in_bta_thread, bta_sys_sendmsg]
    · refine shape_reject cfg gap st _ trivial ?_
      simp only [apiStep, close_invalid cfg st handle rfcomm_slot_id hv, Option.map_some']
  | BTA_JvRfcommStartServer sec_mask role local_scn max_session p_cback rfcomm_slot_id =>
    cases p_cback with
    | none => exact shape_reject cfg gap st _ trivial rfl
    | some c =>
      exact shape_append cfg gap st _ _ _ _ trivial rfl (by simp [BTA_JvRfcommStartServer]) rfl rfl rfl (Or.inl rfl)
  | BTA_JvRfcommStopServer handle rfcomm_slot_id =>
    exact shape_append cfg gap st _ _ _ _ trivial rfl (by simp [BTA_JvRfcommStopServer]) rfl rfl rfl (Or.inl rfl)
  | BTA_JvRfcommWrite handle req_id =>
    by_cases hv : spec_rfc_handle_valid cfg st handle
    · refine shape_append cfg gap st _ (some BTA_JV_SUCCESS)
        (bta_sys_sendmsg st
          (.BTA_JV_API_RFCOMM_WRITE_EVT handle req_id (rfc_hi cfg handle)
            ((st.bta_jv_cb.rfc_cb (rfc_hi cfg handle)).rfc_hdl (rfc_si cfg handle) - 1))) _ trivial ?_
        (by simp) rfl rfl rfl (Or.inl rfl)
      simp only [apiStep, write_valid cfg st handle req_id hv,
        Option.map_some', do_in_bta_thread, bta_sys_sendmsg]
    · refine shape_reject cfg gap st _ trivial ?_
      simp only [apiStep, write_invalid cfg st handle req_id hv, Option.map_some']
  | BTA_JvSetPmProfile handle app_id init_st =>
    exact shape_append cfg gap st _ _ _ _ trivial rfl (by simp [BTA_JvSetPmProfile]) rfl rfl rfl (Or.inl rfl)

/-! ## Rejected submissions -/

/-- C11. Rejected-at-submission has no effect: every status-returning call of
the API (`BTA_JvEnable`, `BTA_JvGetChannelId`, the L2CAP connect, start-server,
close, read, ready and write calls, the RFCOMM connect, start-server, close
and write calls, and the calls that never fail) completes, the one exception
being a `BTA_JvStartDiscovery` whose copy runs out of bounds, and if it returns
`BTA_JV_FAILURE` the state it leaves is the state it found: same queue, same
record of callbacks run, same control-block pools and power-mode table. -/
theorem rejected_submission_has_no_effect (cfg : JvConfig) (gap : GapApi) (st : JvState)
    (call : ApiCall) :
    ((∃ r, apiStep cfg gap st call = some r) ↔ call.copyInBounds cfg) ∧
      ∀ st1, apiStep cfg gap st call = some (some BTA_JV_FAILURE, st1) →
        st1 = st ∧ st1.queue = st.queue ∧ st1.cbacks = st.cbacks ∧
          st1.bta_jv_cb = st.bta_jv_cb := by
  obtain ⟨hdone, hall⟩ := apiStep_shape cfg gap st call
  refine ⟨hdone, ?_⟩
  intro st1 h1
  have := (hall _ _ h1).1 rfl
  subst this
  exact ⟨rfl, rfl, rfl, rfl⟩

/-! ## Callbacks in the caller's context -/

/-- C12, counterexample. In the sample state channel 3 is open with callback 9
and socket id 100; `BTA_JvL2capRead` on it returns `BTA_JV_SUCCESS` having run
callback 9 with `BTA_JV_L2CAP_READ_EVT` itself, so the record of callbacks run
in the caller's context is not what it was before the call. -/
theorem l2cap_read_runs_callback_in_caller :
    (apiStep defaultConfig sampleGap sampleState (.BTA_JvL2capRead 3 11 0 16)).map
        (fun r => (r.1, r.2.cbacks)) =
      some (some BTA_JV_SUCCESS, [.BTA_JV_L2CAP_READ_EVT 9 BTA_JV_SUCCESS 3 11 0 16 100]) ∧
    (apiStep defaultConfig sampleGap sampleState (.BTA_JvL2capRead 3 11 0 16)).map
        (fun r => r.2.cbacks) ≠ some sampleState.cbacks := by
  decide

/-- C12, amended. No submission function other than `BTA_JvL2capRead` runs a
callback in the caller's context (each call completes, the one exception being
a `BTA_JvStartDiscovery` whose copy runs out of bounds).  `BTA_JvL2capRead`
runs none when the handle
is out of range or its block has no callback; on an in-range handle with a
registered callback it runs that callback once, with `BTA_JV_L2CAP_READ_EVT`
and the block's socket id, before it returns, and queues nothing. -/
theorem callbacks_only_from_l2cap_read (cfg : JvConfig) (gap : GapApi) (st : JvState)
    (call : ApiCall) (handle req_id p_data len : Nat) :
    ((∃ r, apiStep cfg gap st call = some r) ↔ call.copyInBounds cfg) ∧
      (call.isL2capRead = false →
        ∀ res st1, apiStep cfg gap st call = some (res, st1) → st1.cbacks = st.cbacks) ∧
      (¬ spec_l2c_handle_registered cfg st handle →
        BTA_JvL2capRead cfg gap st handle req_id p_data len = some (BTA_JV_FAILURE, st)) ∧
      (∀ c, handle < cfg.BTA_JV_MAX_L2C_CONN →
        (st.bta_jv_cb.l2c_cb handle).p_cback = some c →
        ∃ evt_status n,
          BTA_JvL2capRead cfg gap st handle req_id p_data len =
            some (BTA_JV_SUCCESS,
              { st with
                cbacks := st.cbacks ++
                  [.BTA_JV_L2CAP_READ_EVT c evt_status handle req_id p_data n
                    (st.bta_jv_cb.l2c_cb handle).l2cap_socket_id] })) := by
  obtain ⟨hdone, hall⟩ := apiStep_shape cfg gap st call
  refine ⟨hdone, ?_, l2cap_read_unregistered cfg gap st handle req_id p_data len, ?_⟩
  · intro hnr res2 st2 h2
    exact (hall _ _ h2).2.2.2.1 hnr
  · intro c h1 h2
    exact ⟨_, _, l2cap_read_registered cfg gap st handle req_id p_data len c h1 h2⟩


/-! ## The two handle spaces -/

theorem marker_bit_set (x : Nat) (h : x / 0x80 % 2 = 1) : x &&& 0x80 = 0x80 := by
  apply Nat.eq_of_testBit_eq
  intro i
  have h80 : (0x80 : Nat) = 2 ^ 7 := by norm_num
  rw [Nat.testBit_and, h80, Nat.testBit_two_pow]
  by_cases hi : 7 = i
  · subst hi
    have : x.testBit 7 = true := by
      rw [Nat.testBit_to_div_mod]
      simpa using h
    simp [this]
  · simp [hi]

/-- C13. The two handle spaces are disjoint: under the header layout, with
pools that fit the handle fields and an L2CAP pool no larger than the marker
bit, the encoded handle of every valid `(hi, si)` has the `BTA_JV_RFCOMM_MASK`
bit set and is not below `BTA_JV_MAX_L2C_CONN`; so in every state
`BTA_JvL2capClose`, `BTA_JvL2capWrite`, `BTA_JvL2capRead` and `BTA_JvL2capReady`
return `BTA_JV_FAILURE` for it and leave the state as it was. -/
theorem rfcomm_handle_outside_l2cap_range (cfg : JvConfig) (hL : cfg.HeaderLayout)
    (hconn : cfg.BTA_JV_MAX_RFC_CONN ≤ 0x7F) (hsess : cfg.BTA_JV_MAX_RFC_SR_SESSION ≤ 0x100)
    (hl2c : cfg.BTA_JV_MAX_L2C_CONN ≤ cfg.BTA_JV_RFCOMM_MASK) (gap : GapApi) (st : JvState)
    (hi si : Nat) (hhi : hi < cfg.BTA_JV_MAX_RFC_CONN)
    (hsi : si < cfg.BTA_JV_MAX_RFC_SR_SESSION) (req_id p_data len user_id : Nat)
    (p_data_size : Bool) :
    rfc_encode cfg hi si &&& cfg.BTA_JV_RFCOMM_MASK = cfg.BTA_JV_RFCOMM_MASK ∧
      cfg.BTA_JV_MAX_L2C_CONN ≤ rfc_encode cfg hi si ∧
      BTA_JvL2capClose cfg st (rfc_encode cfg hi si) = some (BTA_JV_FAILURE, st) ∧
      BTA_JvL2capWrite cfg st (rfc_encode cfg hi si) req_id p_data len user_id =
        some (BTA_JV_FAILURE, st) ∧
      BTA_JvL2capRead cfg gap st (rfc_encode cfg hi si) req_id p_data len =
        some (BTA_JV_FAILURE, st) ∧
      BTA_JvL2capReady cfg gap st (rfc_encode cfg hi si) p_data_size =
        some (BTA_JV_FAILURE, st, none) := by
  have hval := rfc_encode_val cfg hL hi si (by omega) (by omega)
  have hR : cfg.BTA_JV_RFCOMM_MASK = 0x80 := hL.2.1
  have hge : cfg.BTA_JV_MAX_L2C_CONN ≤ rfc_encode cfg hi si := by
    rw [hval]; omega
  have hnot : ¬ spec_l2c_handle_registered cfg st (rfc_encode cfg hi si) := by
    rintro ⟨h1, _⟩
    omega
  refine ⟨?_, hge, l2cap_close_unregistered cfg st _ hnot,
    l2cap_write_unregistered cfg st _ req_id p_data len user_id hnot,
    l2cap_read_unregistered cfg gap st _ req_id p_data len hnot,
    l2cap_ready_rejected cfg gap st _ p_data_size (fun h => hnot h.2)⟩
  rw [hR, hval]
  exact marker_bit_set _ (by omega)

theorem rfcomm_handle_outside_l2cap_range_witness :
    defaultConfig.HeaderLayout ∧ defaultConfig.BTA_JV_MAX_RFC_CONN ≤ 0x7F ∧
      defaultConfig.BTA_JV_MAX_RFC_SR_SESSION ≤ 0x100 ∧
      defaultConfig.BTA_JV_MAX_L2C_CONN ≤ defaultConfig.BTA_JV_RFCOMM_MASK ∧
      2 < defaultConfig.BTA_JV_MAX_RFC_CONN ∧ 1 < defaultConfig.BTA_JV_MAX_RFC_SR_SESSION ∧
      BTA_JvL2capClose defaultConfig sampleState (rfc_encode defaultConfig 2 1) =
        some (BTA_JV_FAILURE, sampleState) :=
  ⟨defaultConfig_layout, by decide, by decide, by decide, by decide, by decide,
    (rfcomm_handle_outside_l2cap_range defaultConfig defaultConfig_layout (by decide)
      (by decide) (by decide) sampleGap sampleState 2 1 (by decide) (by decide) 0 0 0 0
      true).2.2.1⟩

/-! ## The port-handle query -/

theorem get_port_hdl_assigned (cfg : JvConfig) (st : JvState) (handle : Nat)
    (h1 : rfc_hi cfg handle < cfg.BTA_JV_MAX_RFC_CONN)
    (h3 : rfc_si cfg handle < cfg.BTA_JV_MAX_RFC_SR_SESSION)
    (h4 : (st.bta_jv_cb.rfc_cb (rfc_hi cfg handle)).rfc_hdl (rfc_si cfg handle) ≠ 0) :
    BTA_JvRfcommGetPortHdl cfg st handle =
      (port_cb_at cfg st.bta_jv_cb
        ((st.bta_jv_cb.rfc_cb (rfc_hi cfg handle)).rfc_hdl (rfc_si cfg handle) - 1)).map
        fun pcb => pcb.port_handle := by
  simp [BTA_JvRfcommGetPortHdl, rfc_cb_at, rfc_hdl_at, h1, h3, h4]

/-- C14. The port-handle query treats an unallocated slot as failure and
otherwise reads the bound port: in every state and for every handle, when the
decoded `hi` and `si` are in range and `rfc_cb[hi].rfc_hdl[si]` is non-zero,
`BTA_JvRfcommGetPortHdl` returns what the read of
`port_cb[rfc_hdl[si] - 1].port_handle` gives, which is that entry's port handle
whenever the reference lies within `port_cb`; in every other case it returns
`0xffff`.  The function only returns a value: it has no state to hand back. -/
theorem get_port_hdl_reads_bound_port (cfg : JvConfig) (st : JvState) (handle : Nat) :
    ((rfc_hi cfg handle < cfg.BTA_JV_MAX_RFC_CONN ∧
          rfc_si cfg handle < cfg.BTA_JV_MAX_RFC_SR_SESSION ∧
          (st.bta_jv_cb.rfc_cb (rfc_hi cfg handle)).rfc_hdl (rfc_si cfg handle) ≠ 0) →
        BTA_JvRfcommGetPortHdl cfg st handle =
            (port_cb_at cfg st.bta_jv_cb
              ((st.bta_jv_cb.rfc_cb (rfc_hi cfg handle)).rfc_hdl (rfc_si cfg handle) - 1)).map
              (fun pcb => pcb.port_handle) ∧
          ((st.bta_jv_cb.rfc_cb (rfc_hi cfg handle)).rfc_hdl (rfc_si cfg handle) ≤
              cfg.MAX_RFC_PORTS →
            BTA_JvRfcommGetPortHdl cfg st handle =
              some (st.bta_jv_cb.port_cb
                ((st.bta_jv_cb.rfc_cb (rfc_hi cfg handle)).rfc_hdl (rfc_si cfg handle) -
                  1)).port_handle)) ∧
      (¬ (rfc_hi cfg handle < cfg.BTA_JV_MAX_RFC_CONN ∧
          rfc_si cfg handle < cfg.BTA_JV_MAX_RFC_SR_SESSION ∧
          (st.bta_jv_cb.rfc_cb (rfc_hi cfg handle)).rfc_hdl (rfc_si cfg handle) ≠ 0) →
        BTA_JvRfcommGetPortHdl cfg st handle = some 0xffff) := by
  refine ⟨?_, get_port_hdl_unassigned cfg st handle⟩
  rintro ⟨h1, h3, h4⟩
  have e := get_port_hdl_assigned cfg st handle h1 h3 h4
  refine ⟨e, ?_⟩
  intro hle
  have hlt : (st.bta_jv_cb.rfc_cb (rfc_hi cfg handle)).rfc_hdl (rfc_si cfg handle) - 1 <
      cfg.MAX_RFC_PORTS := by omega
  rw [e]
  simp [port_cb_at, hlt]

/-- The sample state's open session answers the query with its port handle. -/
theorem get_port_hdl_sample :
    BTA_JvRfcommGetPortHdl defaultConfig sampleState 0x183 = some 0x21 ∧
      BTA_JvRfcommGetPortHdl defaultConfig sampleState 0x283 = some 0xffff := by
  decide

/-- The port-handle query itself never reads the callback.  In `staleState`,
which is outside the life cycle of a control block (`rfc_cb[2]` has no callback
but its sub-session 1 still refers to a port), the handle `0x183` makes
`BTA_JvRfcommClose` and `BTA_JvRfcommWrite` return `BTA_JV_FAILURE` while
`BTA_JvRfcommGetPortHdl` returns the port handle `0x21`. -/
theorem get_port_hdl_skips_callback_check :
    rfc_hi defaultConfig 0x183 = 2 ∧ rfc_si defaultConfig 0x183 = 1 ∧
      rfc_hi defaultConfig 0x183 < defaultConfig.BTA_JV_MAX_RFC_CONN ∧
      (staleState.bta_jv_cb.rfc_cb 2).p_cback = none ∧
      (BTA_JvRfcommClose defaultConfig staleState 0x183 0).map Prod.fst =
        some BTA_JV_FAILURE ∧
      (BTA_JvRfcommWrite defaultConfig staleState 0x183 0).map Prod.fst =
        some BTA_JV_FAILURE ∧
      BTA_JvRfcommGetPortHdl defaultConfig staleState 0x183 = some 0x21 ∧
      BTA_JvRfcommGetPortHdl defaultConfig staleState 0x183 ≠ some 0xffff := by
  decide


/-! ## Handles of session blocks without a callback -/

/-- The pools `BTA_JvEnable` leaves obey the life cycle: nothing is allocated. -/
theorem lifecycle_after_enable (cfg : JvConfig) : spec_rfc_lifecycle cfg (enabledCb cfg) := by
  intro hi _ _ si _
  rfl

/-- No call of the API takes the pools out of the life cycle: a call leaves
`bta_jv_cb` alone or, in `BTA_JvEnable`, clears it. -/
theorem lifecycle_preserved (cfg : JvConfig) (gap : GapApi) (st st1 : JvState)
    (call : ApiCall) (res : Option tBTA_JV_STATUS)
    (h : apiStep cfg gap st call = some (res, st1))
    (hl : spec_rfc_lifecycle cfg st.bta_jv_cb) : spec_rfc_lifecycle cfg st1.bta_jv_cb := by
  rcases ((apiStep_shape cfg gap st call).2 res st1 h).2.2.2.2 with e | e
  · rw [e]; exact hl
  · rw [e]; exact lifecycle_after_enable cfg

/-- The life cycle holds in every state a run of calls reaches from the state
`BTA_JvEnable` sets up. -/
theorem lifecycle_preserved_run (cfg : JvConfig) (gap : GapApi) (calls : List ApiCall) :
    ∀ st stn : JvState, runCalls cfg gap st calls = some stn →
      spec_rfc_lifecycle cfg st.bta_jv_cb → spec_rfc_lifecycle cfg stn.bta_jv_cb := by
  induction calls with
  | nil =>
    intro st stn h hl
    simp only [runCalls, Option.some.injEq] at h
    subst h
    exact hl
  | cons c cs ih =>
    intro st stn h hl
    simp only [runCalls] at h
    cases he : apiStep cfg gap st c with
    | none => rw [he] at h; simp at h
    | some r =>
      rw [he] at h
      exact ih r.2 stn (by simpa using h) (lifecycle_preserved cfg gap st r.2 c r.1 he hl)

/-- C16. L2CAP read and queue-depth queries surface the transport's pass/fail
result without local state changes.  `BTA_JvL2capReady` returns
`BTA_JV_SUCCESS` exactly when `p_data_size` is non-null, the handle is below
`BTA_JV_MAX_L2C_CONN`, its block has a callback and `GAP_GetRxQueueCnt` returns
`BT_PASS`, and it always hands back the state it was given.  `BTA_JvL2capRead`
on an in-range handle with a registered callback reports, in the status of the
`BTA_JV_L2CAP_READ_EVT` it delivers, `BTA_JV_SUCCESS` exactly when
`GAP_ConnReadData` returns `BT_PASS` and `BTA_JV_FAILURE` when it does not (its
own return value is `BTA_JV_SUCCESS` either way); no call of it changes a
control block or the queue. -/
theorem l2cap_queries_surface_transport_result (cfg : JvConfig) (gap : GapApi)
    (st : JvState) (handle req_id p_data len : Nat) (p_data_size : Bool) :
    ((BTA_JvL2capReady cfg gap st handle p_data_size).map (fun r => r.1) =
          some BTA_JV_SUCCESS ↔
        (p_data_size = true ∧ spec_l2c_handle_registered cfg st handle ∧
          gap.BT_PASS = (gap.GAP_GetRxQueueCnt (handle % 2 ^ 16)).1)) ∧
      (∃ status size,
        BTA_JvL2capReady cfg gap st handle p_data_size = some (status, st, size)) ∧
      (∀ c, handle < cfg.BTA_JV_MAX_L2C_CONN →
        (st.bta_jv_cb.l2c_cb handle).p_cback = some c →
        ∃ evt_status,
          BTA_JvL2capRead cfg gap st handle req_id p_data len =
            some (BTA_JV_SUCCESS,
              { st with
                cbacks := st.cbacks ++
                  [.BTA_JV_L2CAP_READ_EVT c evt_status handle req_id p_data
                    (gap.GAP_ConnReadData (handle % 2 ^ 16) p_data len).2
                    (st.bta_jv_cb.l2c_cb handle).l2cap_socket_id] }) ∧
          (evt_status = BTA_JV_SUCCESS ↔
            gap.BT_PASS = (gap.GAP_ConnReadData (handle % 2 ^ 16) p_data len).1) ∧
          (evt_status = BTA_JV_FAILURE ↔
            gap.BT_PASS ≠ (gap.GAP_ConnReadData (handle % 2 ^ 16) p_data len).1)) ∧
      (∃ status st1,
        BTA_JvL2capRead cfg gap st handle req_id p_data len = some (status, st1) ∧
          st1.bta_jv_cb = st.bta_jv_cb ∧ st1.queue = st.queue) := by
  refine ⟨?_, ?_, ?_, ?_⟩
  · by_cases hv : p_data_size = true ∧ spec_l2c_handle_registered cfg st handle
    · obtain ⟨hp, hreg⟩ := hv
      subst hp
      rw [l2cap_ready_registered cfg gap st handle hreg]
      by_cases hpass : gap.BT_PASS = (gap.GAP_GetRxQueueCnt (handle % 65536)).1
      · simp [hpass, hreg]
      · simp [hpass]
    · rw [l2cap_ready_rejected cfg gap st handle p_data_size hv]
      constructor
      · intro h
        simp at h
      · rintro ⟨h1, h2, _⟩
        exact absurd ⟨h1, h2⟩ hv
  · by_cases hv : p_data_size = true ∧ spec_l2c_handle_registered cfg st handle
    · obtain ⟨hp, hreg⟩ := hv
      subst hp
      exact ⟨_, _, l2cap_ready_registered cfg gap st handle hreg⟩
    · exact ⟨_, _, l2cap_ready_rejected cfg gap st handle p_data_size hv⟩
  · intro c h1 h2
    refine ⟨_, l2cap_read_registered cfg gap st handle req_id p_data len c h1 h2, ?_, ?_⟩
    · by_cases hpass : gap.BT_PASS = (gap.GAP_ConnReadData (handle % 2 ^ 16) p_data len).1
      · simp [hpass]
      · simp [hpass]
    · by_cases hpass : gap.BT_PASS = (gap.GAP_ConnReadData (handle % 2 ^ 16) p_data len).1
      · simp [hpass]
      · simp [hpass]
  · by_cases hv : spec_l2c_handle_registered cfg st handle
    · obtain ⟨h1, h2⟩ := hv
      obtain ⟨c, hc⟩ := Option.ne_none_iff_exists'.mp h2
      exact ⟨_, _, l2cap_read_registered cfg gap st handle req_id p_data len c h1 hc, rfl, rfl⟩
    · exact ⟨_, _, l2cap_read_unregistered cfg gap st handle req_id p_data len hv, rfl, rfl⟩

/-- A transport whose reads fail: the read on the open channel of the sample
state still returns `BTA_JV_SUCCESS`, and the event it delivers carries
`BTA_JV_FAILURE`. -/
theorem l2cap_read_sample_failing_transport :
    (BTA_JvL2capRead defaultConfig
        { BT_PASS := 0, GAP_ConnReadData := fun _ _ _ => (1, 0),
          GAP_GetRxQueueCnt := fun _ => (1, 0) }
        sampleState 3 11 0 16).map (fun r => (r.1, r.2.cbacks)) =
      some (BTA_JV_SUCCESS, [.BTA_JV_L2CAP_READ_EVT 9 BTA_JV_FAILURE 3 11 0 0 100]) := by
  decide


/-! ## Submission order -/

theorem runCalls_append (cfg : JvConfig) (gap : GapApi) (cs1 cs2 : List ApiCall) :
    ∀ st : JvState,
      runCalls cfg gap st (cs1 ++ cs2) =
        (runCalls cfg gap st cs1).bind fun s => runCalls cfg gap s cs2 := by
  induction cs1 with
  | nil => intro st; simp [runCalls]
  | cons c cs ih =>
    intro st
    simp only [List.cons_append, runCalls]
    cases apiStep cfg gap st c with
    | none => simp
    | some r => simp [ih]

/-- What one call leaves on the queue beyond what it found: one request when it
was accepted for queuing, nothing otherwise; what it found stays in front. -/
theorem apiStep_queue (cfg : JvConfig) (gap : GapApi) (st st1 : JvState) (call : ApiCall)
    (res : Option tBTA_JV_STATUS) (h : apiStep cfg gap st call = some (res, st1)) :
    st1.queue = st.queue ++ st1.queue.drop st.queue.length ∧
      (st1.queue.drop st.queue.length).length =
        if acceptedForQueuing call res then 1 else 0 := by
  obtain ⟨_, hy, hn, _, _⟩ := (apiStep_shape cfg gap st call).2 res st1 h
  cases ha : acceptedForQueuing call res with
  | true =>
    obtain ⟨q, hq⟩ := hy ha
    rw [hq]
    simp
  | false =>
    rw [hn ha]
    simp

/-- A run of calls whose copies stay in bounds completes. -/
theorem runCalls_completes (cfg : JvConfig) (gap : GapApi) (calls : List ApiCall) :
    ∀ st : JvState, (∀ c ∈ calls, c.copyInBounds cfg) →
      ∃ stn, runCalls cfg gap st calls = some stn := by
  induction calls with
  | nil => intro st _; exact ⟨st, rfl⟩
  | cons c cs ih =>
    intro st hb
    obtain ⟨r, hr⟩ := (apiStep_shape cfg gap st c).1.mpr (hb c (List.mem_cons_self c cs))
    obtain ⟨stn, hn⟩ := ih r.2 (fun x hx => hb x (List.mem_cons_of_mem c hx))
    exact ⟨stn, by simp [runCalls, hr, hn]⟩

/-- After a run the queue is the old queue followed by what the calls
submitted, call by call, and that is one request per accepted call. -/
theorem runCalls_queue (cfg : JvConfig) (gap : GapApi) (calls : List ApiCall) :
    ∀ st stn : JvState, runCalls cfg gap st calls = some stn →
      stn.queue = st.queue ++ submitted cfg gap st calls ∧
        (submitted cfg gap st calls).length = acceptedCount cfg gap st calls := by
  induction calls with
  | nil =>
    intro st stn h
    simp only [runCalls, Option.some.injEq] at h
    subst h
    simp [submitted, acceptedCount]
  | cons c cs ih =>
    intro st stn h
    simp only [runCalls] at h
    cases he : apiStep cfg gap st c with
    | none => rw [he] at h; simp at h
    | some r =>
      rw [he] at h
      obtain ⟨hq, hlen⟩ := ih r.2 stn (by simpa using h)
      obtain ⟨hpre, hone⟩ := apiStep_queue cfg gap st r.2 c r.1 he
      refine ⟨?_, ?_⟩
      · simp only [submitted, he]
        rw [hq, ← List.append_assoc, ← hpre]
      · simp only [submitted, acceptedCount, he, List.length_append]
        rw [hone, hlen]

/-- The worker takes the queued requests oldest first. -/
theorem worker_trace_take : ∀ (n : Nat) (st : JvState),
    worker_trace n st = st.queue.take n := by
  intro n
  induction n with
  | zero => intro st; simp [worker_trace]
  | succ k ih =>
    intro st
    cases hq : st.queue with
    | nil => simp [worker_trace, worker_step, hq]
    | cons r rest => simp [worker_trace, worker_step, hq, ih]

/-- C17. Submission order is queue order.  Both posting primitives put the
request at the tail of the one queue.  Every call completes (unless a
`BTA_JvStartDiscovery` copies out of bounds), and a call that is accepted for
queuing leaves the queue longer by exactly one request at its tail, any other
call leaves the queue as it was.  A run of calls handles them one after the
other; after it the queue is the old queue, then what the earlier calls
submitted, then what the later calls submitted, one request for each accepted
call; the worker takes requests off the queue oldest first, hence in
submission order; and a close submitted after a connect is queued, and taken
by the worker, after that connect. -/
theorem submission_order_is_queue_order (cfg : JvConfig) (gap : GapApi) (st : JvState)
    (call : ApiCall) (calls later : List ApiCall) (r : Request) :
    ((do_in_bta_thread st r).queue = st.queue ++ [r] ∧
        (bta_sys_sendmsg st r).queue = st.queue ++ [r]) ∧
      ((∃ x, apiStep cfg gap st call = some x) ↔ call.copyInBounds cfg) ∧
      (∀ res st1, apiStep cfg gap st call = some (res, st1) →
        (acceptedForQueuing call res = true → ∃ q, st1.queue = st.queue ++ [q]) ∧
        (acceptedForQueuing call res = false → st1.queue = st.queue)) ∧
      (runCalls cfg gap st [] = some st ∧
        runCalls cfg gap st (call :: calls) =
          (apiStep cfg gap st call).bind fun x => runCalls cfg gap x.2 calls) ∧
      ((∀ c ∈ calls, c.copyInBounds cfg) → ∃ stn, runCalls cfg gap st calls = some stn) ∧
      (∀ st1 st2, runCalls cfg gap st calls = some st1 →
        runCalls cfg gap st1 later = some st2 →
        runCalls cfg gap st (calls ++ later) = some st2 ∧
          st1.queue = st.queue ++ submitted cfg gap st calls ∧
          st2.queue = st.queue ++ submitted cfg gap st calls ++ submitted cfg gap st1 later ∧
          (submitted cfg gap st calls).length = acceptedCount cfg gap st calls ∧
          (submitted cfg gap st1 later).length = acceptedCount cfg gap st1 later ∧
          worker_trace st2.queue.length st2 =
            st.queue ++ submitted cfg gap st calls ++ submitted cfg gap st1 later) ∧
      (∀ n, worker_trace n st = st.queue.take n) ∧
      (∀ sec_mask chan addr c id handle,
        ∃ st2, runCalls cfg gap st
            [.BTA_JvL2capConnectLE sec_mask chan addr (some c) id,
              .BTA_JvL2capCloseLE handle] = some st2 ∧
          worker_trace st2.queue.length st2 =
            st.queue ++ [.bta_jv_l2cap_connect_le chan addr (some c) id,
              .BTA_JV_API_L2CAP_CLOSE_FIXED_EVT handle]) ∧
      (∀ sec_mask role scn addr c id handle slot,
        ∃ st2 rs, runCalls cfg gap st
            [.BTA_JvRfcommConnect sec_mask role scn addr (some c) id,
              .BTA_JvRfcommClose handle slot] = some st2 ∧
          worker_trace st2.queue.length st2 =
            st.queue ++ .BTA_JV_API_RFCOMM_CONNECT_EVT sec_mask role scn addr (some c) id :: rs ∧
          (rs = [] ∨ ∃ p_cb p_pcb, rs = [.BTA_JV_API_RFCOMM_CLOSE_EVT handle p_cb p_pcb slot])) := by
  refine ⟨⟨rfl, rfl⟩, (apiStep_shape cfg gap st call).1, ?_, ⟨rfl, rfl⟩,
    runCalls_completes cfg gap calls st, ?_, fun n => worker_trace_take n st, ?_, ?_⟩
  · intro res st1 h
    obtain ⟨_, hy, hn, _, _⟩ := (apiStep_shape cfg gap st call).2 res st1 h
    exact ⟨hy, hn⟩
  · intro st1 st2 h1 h2
    obtain ⟨hq1, hl1⟩ := runCalls_queue cfg gap calls st st1 h1
    obtain ⟨hq2, hl2⟩ := runCalls_queue cfg gap later st1 st2 h2
    have hq : st2.queue =
        st.queue ++ submitted cfg gap st calls ++ submitted cfg gap st1 later := by
      rw [hq2, hq1]
    refine ⟨?_, hq1, hq, hl1, hl2, ?_⟩
    · rw [runCalls_append, h1]
      simpa using h2
    · rw [worker_trace_take, List.take_length, hq]
  · intro sec_mask chan addr c id handle
    refine ⟨_, rfl, ?_⟩
    rw [worker_trace_take, List.take_length]
    simp [BTA_JvL2capCloseLE, BTA_JvL2capConnectLE, bta_sys_sendmsg, do_in_bta_thread]
  · intro sec_mask role scn addr c id handle slot
    have hc : apiStep cfg gap st (.BTA_JvRfcommConnect sec_mask role scn addr (some c) id) =
        some (some BTA_JV_SUCCESS,
          bta_sys_sendmsg st
            (.BTA_JV_API_RFCOMM_CONNECT_EVT sec_mask role scn addr (some c) id)) := rfl
    by_cases hv : spec_rfc_handle_valid cfg
        (bta_sys_sendmsg st
          (.BTA_JV_API_RFCOMM_CONNECT_EVT sec_mask role scn addr (some c) id)) handle
    · have e := close_valid cfg _ handle slot hv
      refine ⟨bta_sys_sendmsg
          (bta_sys_sendmsg st
            (.BTA_JV_API_RFCOMM_CONNECT_EVT sec_mask role scn addr (some c) id))
          (.BTA_JV_API_RFCOMM_CLOSE_EVT handle (rfc_hi cfg handle)
            ((st.bta_jv_cb.rfc_cb (rfc_hi cfg handle)).rfc_hdl (rfc_si cfg handle) - 1) slot),
        [.BTA_JV_API_RFCOMM_CLOSE_EVT handle (rfc_hi cfg handle)
          ((st.bta_jv_cb.rfc_cb (rfc_hi cfg handle)).rfc_hdl (rfc_si cfg handle) - 1) slot],
        ?_, ?_, Or.inr ⟨_, _, rfl⟩⟩
      · simp only [runCalls]
        rw [hc]
        simp only [Option.some_bind, apiStep, e, Option.map_some', runCalls]
        rfl
      · rw [worker_trace_take, List.take_length]
        simp [bta_sys_sendmsg]
    · have e := close_invalid cfg _ handle slot hv
      refine ⟨bta_sys_sendmsg st
          (.BTA_JV_API_RFCOMM_CONNECT_EVT sec_mask role scn addr (some c) id), [], ?_, ?_,
        Or.inl rfl⟩
      · simp only [runCalls]
        rw [hc]
        simp only [Option.some_bind, apiStep, e, Option.map_some', runCalls]
      · rw [worker_trace_take, List.take_length]
        simp [bta_sys_sendmsg]

/-- Two accepted calls and one rejected call in the sample state: the queue
holds the two requests in the order of the calls.  A discovery for four UUIDs
does not fit the three entries of the message; one for two UUIDs copies the
first two. -/
theorem submission_order_sample :
    (runCalls defaultConfig sampleGap sampleState
        [.BTA_JvSetPmProfile 0x183 1 2, .BTA_JvL2capClose 4, .BTA_JvL2capClose 3]).map
        (fun s => s.queue) =
      some [.BTA_JV_API_SET_PM_PROFILE_EVT 0x183 1 2, .bta_jv_l2cap_close 3 3] ∧
    acceptedCount defaultConfig sampleGap sampleState
        [.BTA_JvSetPmProfile 0x183 1 2, .BTA_JvL2capClose 4, .BTA_JvL2capClose 3] = 2 ∧
    (runCalls defaultConfig sampleGap sampleState
        [.BTA_JvStartDiscovery 7 4 [1, 2, 3, 4] 0]).map (fun s => s.queue) = none ∧
    (runCalls defaultConfig sampleGap sampleState
        [.BTA_JvStartDiscovery 7 2 [1, 2, 3, 4] 0]).map (fun s => s.queue) =
      some [.BTA_JV_API_START_DISCOVERY_EVT 7 2 [1, 2] 0 0] := by
  decide

/-! ## Bits the decode does not look at -/

/-- Handles that agree on the session field and on the sub-session field give
the same results: same validity, same status from close and write, same
selected slots, same answer of the port-handle query. -/
theorem rfc_ops_agree (cfg : JvConfig) (st : JvState) (h1 h2 slot req_id : Nat)
    (hsess : (h1 &&& cfg.BTA_JV_RFC_HDL_MASK) &&& not32 cfg.BTA_JV_RFCOMM_MASK =
      (h2 &&& cfg.BTA_JV_RFC_HDL_MASK) &&& not32 cfg.BTA_JV_RFCOMM_MASK)
    (hsub : cfg.BTA_JV_RFC_HDL_TO_SIDX h1 = cfg.BTA_JV_RFC_HDL_TO_SIDX h2) :
    (rfc_hi cfg h1 = rfc_hi cfg h2 ∧ rfc_si cfg h1 = rfc_si cfg h2) ∧
      (spec_rfc_handle_valid cfg st h1 ↔ spec_rfc_handle_valid cfg st h2) ∧
      (BTA_JvRfcommClose cfg st h1 slot).map Prod.fst =
        (BTA_JvRfcommClose cfg st h2 slot).map Prod.fst ∧
      (BTA_JvRfcommWrite cfg st h1 req_id).map Prod.fst =
        (BTA_JvRfcommWrite cfg st h2 req_id).map Prod.fst ∧
      BTA_JvRfcommGetPortHdl cfg st h1 = BTA_JvRfcommGetPortHdl cfg st h2 ∧
      (spec_rfc_handle_valid cfg st h1 →
        ∃ p_cb p_pcb,
          BTA_JvRfcommClose cfg st h1 slot =
              some (BTA_JV_SUCCESS,
                { st with
                  queue := st.queue ++ [.BTA_JV_API_RFCOMM_CLOSE_EVT h1 p_cb p_pcb slot] }) ∧
            BTA_JvRfcommClose cfg st h2 slot =
              some (BTA_JV_SUCCESS,
                { st with
                  queue := st.queue ++ [.BTA_JV_API_RFCOMM_CLOSE_EVT h2 p_cb p_pcb slot] }) ∧
            BTA_JvRfcommWrite cfg st h1 req_id =
              some (BTA_JV_SUCCESS,
                { st with
                  queue := st.queue ++ [.BTA_JV_API_RFCOMM_WRITE_EVT h1 req_id p_cb p_pcb] }) ∧
            BTA_JvRfcommWrite cfg st h2 req_id =
              some (BTA_JV_SUCCESS,
                { st with
                  queue := st.queue ++
                    [.BTA_JV_API_RFCOMM_WRITE_EVT h2 req_id p_cb p_pcb] })) := by
  have hhi : rfc_hi cfg h1 = rfc_hi cfg h2 := by
    unfold rfc_hi
    rw [hsess]
  have hsi : rfc_si cfg h1 = rfc_si cfg h2 := hsub
  have hvalid : spec_rfc_handle_valid cfg st h1 ↔ spec_rfc_handle_valid cfg st h2 := by
    unfold spec_rfc_handle_valid
    rw [hhi, hsi]
  refine ⟨⟨hhi, hsi⟩, hvalid, ?_, ?_, ?_, ?_⟩
  · by_cases hv : spec_rfc_handle_valid cfg st h1
    · rw [close_valid cfg st h1 slot hv, close_valid cfg st h2 slot (hvalid.mp hv)]
      rfl
    · rw [close_invalid cfg st h1 slot hv,
        close_invalid cfg st h2 slot (fun h => hv (hvalid.mpr h))]
  · by_cases hv : spec_rfc_handle_valid cfg st h1
    · rw [write_valid cfg st h1 req_id hv, write_valid cfg st h2 req_id (hvalid.mp hv)]
      rfl
    · rw [write_invalid cfg st h1 req_id hv,
        write_invalid cfg st h2 req_id (fun h => hv (hvalid.mpr h))]
  · unfold BTA_JvRfcommGetPortHdl
    rw [hhi, hsi]
  · intro hv
    have hv2 := hvalid.mp hv
    refine ⟨rfc_hi cfg h1,
      (st.bta_jv_cb.rfc_cb (rfc_hi cfg h1)).rfc_hdl (rfc_si cfg h1) - 1,
      close_valid cfg st h1 slot hv, ?_, write_valid cfg st h1 req_id hv, ?_⟩
    · rw [close_valid cfg st h2 slot hv2, hhi, hsi]
    · rw [write_valid cfg st h2 req_id hv2, hhi, hsi]

/-- Under the header layout the plain number `hi + 1` has the same session and
sub-session fields as the encoded handle of `(hi, 0)`. -/
theorem plain_handle_fields (cfg : JvConfig) (hL : cfg.HeaderLayout) (hi : Nat)
    (hhi : hi < 0x7F) :
    ((hi + 1) &&& cfg.BTA_JV_RFC_HDL_MASK) &&& not32 cfg.BTA_JV_RFCOMM_MASK =
        (rfc_encode cfg hi 0 &&& cfg.BTA_JV_RFC_HDL_MASK) &&& not32 cfg.BTA_JV_RFCOMM_MASK ∧
      cfg.BTA_JV_RFC_HDL_TO_SIDX (hi + 1) =
        cfg.BTA_JV_RFC_HDL_TO_SIDX (rfc_encode cfg hi 0) := by
  rw [rfc_encode_val cfg hL hi 0 hhi (by decide)]
  obtain ⟨hM, hR, hS⟩ := hL
  rw [hM, hR, not32_marker, low_byte, low_byte, hS, hS, second_byte, second_byte]
  have e1 : (hi + 1) % 0x100 = hi + 1 := by omega
  have e2 : (0x100 * 0 + (0x80 + (hi + 1))) % 0x100 = 0x80 + (hi + 1) := by omega
  rw [e1, e2, and_clear_bit7 _ (by omega), and_clear_bit7 _ (by omega)]
  constructor <;> omega

/-- C18. The RFCOMM decode ignores the marker bit and every bit above the
sub-session field: in every state, two handles that agree on the session field
`(h & BTA_JV_RFC_HDL_MASK) & ~BTA_JV_RFCOMM_MASK` and on what
`BTA_JV_RFC_HDL_TO_SIDX` reads decode to the same `(hi, si)`, get the same
status from `BTA_JvRfcommClose` and `BTA_JvRfcommWrite` and the same answer
from `BTA_JvRfcommGetPortHdl`, and a queued close or write refers to the same
`rfc_cb` and `port_cb` slots for both; in particular, under the header layout,
the plain value `hi + 1` is treated exactly like the encoded handle of
`(hi, 0)`. -/
theorem rfc_decode_ignores_other_bits (cfg : JvConfig) (st : JvState)
    (h1 h2 slot req_id : Nat)
    (hsess : (h1 &&& cfg.BTA_JV_RFC_HDL_MASK) &&& not32 cfg.BTA_JV_RFCOMM_MASK =
      (h2 &&& cfg.BTA_JV_RFC_HDL_MASK) &&& not32 cfg.BTA_JV_RFCOMM_MASK)
    (hsub : cfg.BTA_JV_RFC_HDL_TO_SIDX h1 = cfg.BTA_JV_RFC_HDL_TO_SIDX h2) :
    ((rfc_hi cfg h1 = rfc_hi cfg h2 ∧ rfc_si cfg h1 = rfc_si cfg h2) ∧
        (BTA_JvRfcommClose cfg st h1 slot).map Prod.fst =
          (BTA_JvRfcommClose cfg st h2 slot).map Prod.fst ∧
        (BTA_JvRfcommWrite cfg st h1 req_id).map Prod.fst =
          (BTA_JvRfcommWrite cfg st h2 req_id).map Prod.fst ∧
        BTA_JvRfcommGetPortHdl cfg st h1 = BTA_JvRfcommGetPortHdl cfg st h2 ∧
        (spec_rfc_handle_valid cfg st h1 →
          ∃ p_cb p_pcb,
            BTA_JvRfcommClose cfg st h1 slot =
                some (BTA_JV_SUCCESS,
                  { st with
                    queue := st.queue ++ [.BTA_JV_API_RFCOMM_CLOSE_EVT h1 p_cb p_pcb slot] }) ∧
              BTA_JvRfcommClose cfg st h2 slot =
                some (BTA_JV_SUCCESS,
                  { st with
                    queue := st.queue ++ [.BTA_JV_API_RFCOMM_CLOSE_EVT h2 p_cb p_pcb slot] }) ∧
              BTA_JvRfcommWrite cfg st h1 req_id =
                some (BTA_JV_SUCCESS,
                  { st with
                    queue := st.queue ++
                      [.BTA_JV_API_RFCOMM_WRITE_EVT h1 req_id p_cb p_pcb] }) ∧
              BTA_JvRfcommWrite cfg st h2 req_id =
                some (BTA_JV_SUCCESS,
                  { st with
                    queue := st.queue ++
                      [.BTA_JV_API_RFCOMM_WRITE_EVT h2 req_id p_cb p_pcb] }))) ∧
      (cfg.HeaderLayout → ∀ hi, hi < 0x7F →
        (BTA_JvRfcommClose cfg st (hi + 1) slot).map Prod.fst =
            (BTA_JvRfcommClose cfg st (rfc_encode cfg hi 0) slot).map Prod.fst ∧
          (BTA_JvRfcommWrite cfg st (hi + 1) req_id).map Prod.fst =
            (BTA_JvRfcommWrite cfg st (rfc_encode cfg hi 0) req_id).map Prod.fst ∧
          BTA_JvRfcommGetPortHdl cfg st (hi + 1) =
            BTA_JvRfcommGetPortHdl cfg st (rfc_encode cfg hi 0)) := by
  obtain ⟨a, _, b, c, d, e⟩ := rfc_ops_agree cfg st h1 h2 slot req_id hsess hsub
  refine ⟨⟨a, b, c, d, e⟩, ?_⟩
  intro hL hi hhi
  obtain ⟨f1, f2⟩ := plain_handle_fields cfg hL hi hhi
  obtain ⟨_, _, b2, c2, d2, _⟩ := rfc_ops_agree cfg st (hi + 1) (rfc_encode cfg hi 0) slot
    req_id f1 f2
  exact ⟨b2, c2, d2⟩

theorem rfc_decode_ignores_other_bits_witness :
    ((0x183 &&& defaultConfig.BTA_JV_RFC_HDL_MASK) &&& not32 defaultConfig.BTA_JV_RFCOMM_MASK =
        (0x103 &&& defaultConfig.BTA_JV_RFC_HDL_MASK) &&&
          not32 defaultConfig.BTA_JV_RFCOMM_MASK) ∧
      defaultConfig.BTA_JV_RFC_HDL_TO_SIDX 0x183 = defaultConfig.BTA_JV_RFC_HDL_TO_SIDX 0x103 ∧
      (BTA_JvRfcommClose defaultConfig sampleState 0x183 5).map Prod.fst =
        (BTA_JvRfcommClose defaultConfig sampleState 0x103 5).map Prod.fst ∧
      BTA_JvRfcommGetPortHdl defaultConfig sampleState 0x183 =
        BTA_JvRfcommGetPortHdl defaultConfig sampleState 0x103 ∧
      BTA_JvRfcommGetPortHdl defaultConfig sampleState 0x103 = some 0x21 :=
  have h := rfc_decode_ignores_other_bits defaultConfig sampleState 0x183 0x103 5 9
    (by decide) (by decide)
  ⟨by decide, by decide, h.1.2.1, h.1.2.2.2.1, by decide⟩

end BtaJv
